import Mathlib

/-!
# Verification of the RP_TSL sweep acquisition system

Shallow embedding of the repository's Python sources:

* `src/RP_TSL770/sts/sts.py` — the sweep acquisition engine (`get_data`,
  `set_sweep_parameters`, `sweep_STS`);
* `src/RP_TSL770/redpitaya/redpitaya.py` — the digitizer command layer (`ACQ`);
* `src/RP_TSL770/sts/tsl.py` — the laser command layer (`TSL`, `TRIGGER`, `STS`);
* `src/RP_TSL770/error_handling/error_handling.py` — the `exception_handler`
  decorator;
* `src/main.py` — the wavelength mapper (`plot_data`).

The instrument channel is modelled as a scripted environment: each query pops
the next reply from a script, each command is appended to a `sent` log.  Python
exceptions are modelled by `Except PyError`; Python strings manipulated by the
data path are modelled as `List Char`; numeric values as `ℚ`.
-/

/-- Python exception classes that the modelled code can raise.  `transport`
stands for a channel-level failure (pyvisa/socket error) surfaced by a query;
`valueError`, `indexError` and `zeroDivisionError` are the builtin Python
exceptions of those names; `scriptEnd` is a model artifact marking that a
scripted reply list was exhausted (it corresponds to no Python behaviour and
is only ever produced when a scenario script is too short). -/
inductive PyError where
  | transport
  | valueError
  | indexError
  | zeroDivisionError
  | scriptEnd
deriving DecidableEq

instance {ε α : Type} [DecidableEq ε] [DecidableEq α] : DecidableEq (Except ε α) := fun x y =>
  match x, y with
  | .error a, .error b =>
    if h : a = b then .isTrue (by rw [h]) else .isFalse (fun hc => by cases hc; exact h rfl)
  | .ok a, .ok b =>
    if h : a = b then .isTrue (by rw [h]) else .isFalse (fun hc => by cases hc; exact h rfl)
  | .error _, .ok _ => .isFalse (fun hc => by cases hc)
  | .ok _, .error _ => .isFalse (fun hc => by cases hc)

/-- Characters of a string literal (helper for writing `List Char` data). -/
def cs (s : String) : List Char := s.toList

/-! ## Python string primitives used by the data path -/

/-- Python `str.split(sep)` for a one-character separator: splits on every
occurrence, keeping empty parts, and yields `[""]` on the empty string. -/
def splitOnChar (c : Char) : List Char → List (List Char)
  | [] => [[]]
  | x :: xs =>
    match splitOnChar c xs with
    | [] => [[]]
    | t :: ts => if x = c then [] :: t :: ts else (x :: t) :: ts

/-- Python `str.strip(chars)`: removes leading and trailing characters that
belong to `set`. -/
def stripChars (set : List Char) (l : List Char) : List Char :=
  ((l.dropWhile (set.contains ·)).reverse.dropWhile (set.contains ·)).reverse

/-- Fuel-driven core of Python `str.replace(pat, rep)` with non-empty pattern
`p :: ps`: left-to-right, non-overlapping.  The fuel is initialised to the
length of the string, which bounds the recursion. -/
def listReplaceFuel (p : Char) (ps rep : List Char) : ℕ → List Char → List Char
  | _, [] => []
  | 0, l => l
  | fuel + 1, x :: xs =>
    if (p :: ps).isPrefixOf (x :: xs) then
      rep ++ listReplaceFuel p ps rep fuel (xs.drop ps.length)
    else
      x :: listReplaceFuel p ps rep fuel xs

/-- Python `str.replace(pat, rep)` for the non-empty pattern `p :: ps`. -/
def listReplace (p : Char) (ps rep : List Char) (l : List Char) : List Char :=
  listReplaceFuel p ps rep l.length l

/-- Whitespace stripped by Python `float(str)` before conversion. -/
def isPyWs (c : Char) : Bool := c = ' ' || c = '\t' || c = '\n' || c = '\r'

/-- Strip leading and trailing whitespace (as Python `float` does). -/
def stripWs (l : List Char) : List Char :=
  ((l.dropWhile isPyWs).reverse.dropWhile isPyWs).reverse

/-- Numeric value of a digit string (used only under an `all isDigit` guard). -/
def natVal (l : List Char) : ℕ := l.foldl (fun a c => a * 10 + (c.toNat - 48)) 0

/-- Decidable skeleton of Python `float(str)` on plain decimal literals:
strips surrounding whitespace, handles an optional sign, and accepts
`"123"`, `"1.5"`, `"1."` and `".5"`; anything else is rejected (`none`
models `ValueError`).  Returns (sign, integer-part value, fraction-part
value, fraction length); keeping this part of the conversion inside a fully
kernel-computable type lets concrete instances be settled by `decide`.
(Exponents, `inf` and `nan` are accepted by Python but never occur in the
instrument replies this repository parses, so they are not modelled.) -/
def pyFloatParts (l : List Char) : Option (Bool × ℕ × ℕ × ℕ) :=
  let t := stripWs l
  let su : Bool × List Char :=
    match t with
    | c :: r => if c = '-' then (true, r) else if c = '+' then (false, r) else (false, t)
    | [] => (false, [])
  match splitOnChar '.' su.2 with
  | [ip] =>
    if !ip.isEmpty && ip.all Char.isDigit then some (su.1, natVal ip, 0, 0) else none
  | [ip, fp] =>
    if !(ip.isEmpty && fp.isEmpty) && ip.all Char.isDigit && fp.all Char.isDigit then
      some (su.1, natVal ip, natVal fp, fp.length)
    else none
  | _ => none

/-- Rational value denoted by the parts produced by `pyFloatParts`. -/
def partsVal (p : Bool × ℕ × ℕ × ℕ) : ℚ :=
  (if p.1 then -1 else 1) * ((p.2.1 : ℚ) + (p.2.2.1 : ℚ) / (10 : ℚ) ^ p.2.2.2)

/-- Python `float(str)` on the decimal literals the instrument produces. -/
def pyFloat (l : List Char) : Option ℚ := (pyFloatParts l).map partsVal

/-- Python `list(map(float, tokens))`: converts every token, raising
`ValueError` at the first token `float` rejects. -/
def mapFloat : List (List Char) → Except PyError (List ℚ)
  | [] => .ok []
  | t :: ts =>
    match pyFloat t with
    | none => .error .valueError
    | some q =>
      match mapFloat ts with
      | .ok qs => .ok (q :: qs)
      | .error e => .error e

/-- The character set of `buffer_string.strip('{}\n\r')` in sts.py line 143. -/
def pyStripSet : List Char := ['\x7b', '\x7d', '\n', '\r']

/-- sts.py lines 143–145: the reply-parsing pipeline applied to the
accumulated buffer string.  `strip('{}\n\r')`, `replace("  ", "")`,
`replace('{', "")`, `replace('}', "")`, `split(',')`, drop the final token
(`[:-1]`), convert every remaining token with `float`. -/
def parse_buffer_string (l : List Char) : Except PyError (List ℚ) :=
  mapFloat (splitOnChar ','
    (listReplace '\x7d' [] []
      (listReplace '\x7b' [] []
        (listReplace ' ' [' '] [] (stripChars pyStripSet l))))).dropLast

/-- Helper for evaluating `pyFloat` at concrete tokens: the decidable
skeleton is settled by `decide` and the rational payload by `norm_num`. -/
theorem pyFloat_eval {l : List Char} {p : Bool × ℕ × ℕ × ℕ} {q : ℚ}
    (h : pyFloatParts l = some p) (hv : partsVal p = q) : pyFloat l = some q := by
  rw [pyFloat, h, Option.map, hv]

theorem pyFloat_none {l : List Char} (h : pyFloatParts l = none) : pyFloat l = none := by
  rw [pyFloat, h]; rfl

/-! ## The instrument channel model

Each Python method either *sends* a command string (pyvisa `write`, Red
Pitaya `tx_txt`) or *queries* (sends and reads a reply).  The environment is
scripted: successive write-pointer replies and trigger-status replies are
popped from lists, data-segment replies are a function of the request, and
every command sent is appended to a `sent` log.  Data-segment requests are
additionally logged as `(start, N)` pairs in `dataReqs` (the same
information as the logged command text, kept structured).  `errLog` models
the logger that the `exception_handler` decorator reports into. -/

structure RunSt where
  trigRem : List (Except PyError String)
  wposRem : List (Except PyError ℤ)
  segReply : ℤ → ℤ → Except PyError (List Char)
  sent : List String
  dataReqs : List (ℤ × ℤ)
  errLog : List PyError

/-- A Python computation over the channel: it may raise (`Except.error`)
and it threads the scripted channel state. -/
def M (α : Type) : Type := RunSt → Except PyError α × RunSt

def M.pure {α : Type} (a : α) : M α := fun s => (.ok a, s)

def M.bind {α β : Type} (x : M α) (f : α → M β) : M β := fun s =>
  match x s with
  | (.ok a, s1) => f a s1
  | (.error e, s1) => (.error e, s1)

instance : Monad M where
  pure := M.pure
  bind := M.bind

@[simp] theorem M.run_bind {α β : Type} (x : M α) (f : α → M β) (s : RunSt) :
    (x >>= f) s =
      (match x s with
       | (.ok a, s1) => f a s1
       | (.error e, s1) => (.error e, s1)) := rfl

@[simp] theorem M.run_pure {α : Type} (a : α) (s : RunSt) :
    (pure a : M α) s = (.ok a, s) := rfl

/-- Raising a Python exception. -/
def M.throw {α : Type} (e : PyError) : M α := fun s => (.error e, s)

/-- Running a pure `Except` computation (e.g. string parsing) inside `M`. -/
def M.ofExcept {α : Type} (r : Except PyError α) : M α := fun s => (r, s)

/-- Send one command over the channel (pyvisa `write` / scpi `tx_txt`);
commands are modelled as always delivered, queries are where scripted
transport failures occur. -/
def tx (cmd : String) : M Unit := fun s => (.ok (), { s with sent := s.sent ++ [cmd] })

/-- Pop the next scripted reply to a trigger-status query. -/
def rx_trig : M String := fun s =>
  match s.trigRem with
  | [] => (.error .scriptEnd, s)
  | r :: rest => (r, { s with trigRem := rest })

/-- Pop the next scripted reply to a write-pointer query (already converted
by Python `int(...)`; a scripted `.error` models either a transport failure
or an unparseable reply). -/
def rx_wpos : M ℤ := fun s =>
  match s.wposRem with
  | [] => (.error .scriptEnd, s)
  | r :: rest => (r, { s with wposRem := rest })

/-- ASCII lower-casing of one character (Python `str.lower` restricted to
the ASCII command words this repository passes). -/
def charLower (c : Char) : Char :=
  if 65 ≤ c.toNat ∧ c.toNat ≤ 90 then Char.ofNat (c.toNat + 32) else c

/-- ASCII upper-casing of one character (Python `str.upper` restricted to
the ASCII command words this repository passes). -/
def charUpper (c : Char) : Char :=
  if 97 ≤ c.toNat ∧ c.toNat ≤ 122 then Char.ofNat (c.toNat - 32) else c

/-- Python `str.lower()` on the ASCII strings used here. -/
def pyLower (s : String) : String := ⟨s.data.map charLower⟩

/-- Python `str.upper()` on the ASCII strings used here. -/
def pyUpper (s : String) : String := ⟨s.data.map charUpper⟩

/-! ## error_handling.py -/

/-- error_handling.py lines 6–14: the `exception_handler` decorator.  The
wrapper calls the function, catches any raised exception and reports it to
the logger (`errLog`); it never returns the wrapped function's value. -/
def exception_handler {α : Type} (f : M α) : M Unit := fun s =>
  match f s with
  | (.ok _, s1) => (.ok (), s1)
  | (.error e, s1) => (.ok (), { s1 with errLog := s1.errLog ++ [e] })

/-! ## redpitaya.py — class ACQ (the methods the engine uses) -/

/-- redpitaya.py line 46-49. -/
def start_logging : M Unit := tx "ACQ:START"

/-- redpitaya.py line 51-53. -/
def stop_logging : M Unit := tx "ACQ:STOP"

/-- redpitaya.py lines 56–74, body of `ACQ.set_decimation` inside the
decorator: validates that `dec` is a power of two, sends the command if so
and re-raises `ValueError` otherwise. -/
def set_decimation_inner (dec : ℕ) : M Unit :=
  if dec ≠ 0 ∧ dec &&& (dec - 1) = 0 then
    tx ("ACQ:DEC " ++ toString dec)
  else
    M.throw .valueError

/-- `ACQ.set_decimation` as callers see it: decorated by `exception_handler`. -/
def set_decimation (dec : ℕ) : M Unit := exception_handler (set_decimation_inner dec)

/-- redpitaya.py lines 77–91, body of `ACQ.set_averaging`.  Note: the
`except` clause in the source adds a note but does *not* re-raise, so an
invalid state is swallowed inside the method itself (modelled by the `else`
branch returning normally). -/
def set_averaging_inner (state : String) : M Unit :=
  if pyUpper state = "ON" ∨ pyUpper state = "OFF" then
    tx ("ACQ:AVG " ++ pyUpper state)
  else
    M.pure ()

/-- `ACQ.set_averaging` as callers see it: decorated by `exception_handler`. -/
def set_averaging (state : String) : M Unit := exception_handler (set_averaging_inner state)

/-- redpitaya.py lines 93–102: `ACQ.get_write_pointer` queries `ACQ:WPOS?`
and converts the reply with `int(...)`. -/
def get_write_pointer : M ℤ := do
  tx "ACQ:WPOS?"
  rx_wpos

/-- redpitaya.py lines 115–123: `ACQ.set_trigger_level` (called with the
integer 1 by the engine). -/
def set_trigger_level (level : ℤ) : M Unit := tx ("ACQ:TRIG:LEV " ++ toString level)

/-- redpitaya.py lines 126–141, body of `ACQ.set_data_units`: validates the
unit string and re-raises `ValueError` when invalid. -/
def set_data_units_inner (unit : String) : M Unit :=
  if pyUpper unit = "RAW" ∨ pyUpper unit = "VOLTS" then
    tx ("ACQ:DATA:UNITS " ++ pyUpper unit)
  else
    M.throw .valueError

/-- `ACQ.set_data_units` as callers see it: decorated by `exception_handler`. -/
def set_data_units (unit : String) : M Unit := exception_handler (set_data_units_inner unit)

/-- redpitaya.py lines 143–151: `ACQ.set_trigger_state`. -/
def set_trigger_state (channel : String) : M Unit := tx ("ACQ:TRIG " ++ channel)

/-- redpitaya.py lines 153–162: `ACQ.get_trigger_state` queries the raw
trigger status string and returns it unclassified. -/
def get_trigger_state : M String := do
  tx "ACQ:TRIG:STAT?"
  rx_trig

/-- redpitaya.py lines 164–184: `ACQ.get_data_N` requests `N` samples from
absolute buffer offset `start` (per its docstring, positions `start`
(inclusive) to `start + N` (exclusive)) and returns the raw reply string. -/
def get_data_N (source : String) (start N : ℤ) : M (List Char) := fun s =>
  (s.segReply start N,
   { s with
     sent := s.sent ++ ["ACQ:" ++ source ++ ":DATA:STA:N? " ++ toString start ++ "," ++ toString N],
     dataReqs := s.dataReqs ++ [(start, N)] })

/-! ## tsl.py — the TSL/TRIGGER/STS methods the engine uses -/

/-- tsl.py line 29: module-level constant selecting the TSL-770 code paths. -/
def tsl_version : ℕ := 770

/-- tsl.py lines 31–40: the sweep-parameter dataclass (field order as in the
source: `speed`, `power`, then the defaulted wavelengths). -/
structure sweep_parameters_class where
  speed : ℚ
  power : ℚ
  start_wavelength : ℚ := 1500
  stop_wavelength : ℚ := 1600

/-- tsl.py lines 162–179, body of `TSL.set_power`: validates `power ≤ 13`,
sends `:POW <power>mW` on the 770 path, re-raises `ValueError` otherwise. -/
def set_power_inner (power : ℚ) : M Unit :=
  if power ≤ 13 ∧ tsl_version = 770 then
    tx (":POW " ++ toString power ++ "mW")
  else if power ≤ 13 ∧ tsl_version = 550 then
    tx (":POW " ++ toString power)
  else
    M.throw .valueError

/-- `TSL.set_power` as callers see it: decorated by `exception_handler`. -/
def set_power (power : ℚ) : M Unit := exception_handler (set_power_inner power)

/-- tsl.py lines 201–216, body of `TRIGGER.set_external_trigger`. -/
def set_external_trigger_inner (mode : ℤ) : M Unit :=
  if mode = 0 ∨ mode = 1 then
    tx (":TRIG:INP:EXT " ++ toString mode)
  else
    M.throw .valueError

/-- `TRIGGER.set_external_trigger`, decorated. -/
def set_external_trigger (mode : ℤ) : M Unit :=
  exception_handler (set_external_trigger_inner mode)

/-- tsl.py lines 246–251: `TRIGGER.send_software_trigger`. -/
def send_software_trigger : M Unit := tx ":TRIG:INP:SOFT"

/-- tsl.py lines 254–270, body of `TRIGGER.set_trigger_standby`. -/
def set_trigger_standby_inner (mode : ℤ) : M Unit :=
  if mode = 0 ∨ mode = 1 then
    tx (":TRIG:INP:STAN " ++ toString mode)
  else
    M.throw .valueError

/-- `TRIGGER.set_trigger_standby`, decorated. -/
def set_trigger_standby (mode : ℤ) : M Unit :=
  exception_handler (set_trigger_standby_inner mode)

/-- tsl.py lines 290–319, body of `TRIGGER.set_trigger_output`: maps the
mode word (case-insensitively) to a wire code and re-raises `ValueError`
for unknown words. -/
def set_trigger_output_inner (whenArg : String) : M Unit :=
  if pyLower whenArg = "none" then tx ":TRIG:OUTP 0"
  else if pyLower whenArg = "stop" then tx ":TRIG:OUTP 1"
  else if pyLower whenArg = "start" then tx ":TRIG:OUTP 2"
  else if pyLower whenArg = "step" then tx ":TRIG:OUTP 3"
  else M.throw .valueError

/-- `TRIGGER.set_trigger_output`, decorated. -/
def set_trigger_output (whenArg : String) : M Unit :=
  exception_handler (set_trigger_output_inner whenArg)

/-- tsl.py lines 395–412, body of `STS.set_start_wavelength`. -/
def set_start_wavelength_inner (wavelength : ℚ) : M Unit :=
  if (1480 ≤ wavelength ∧ wavelength ≤ 1640) ∧ tsl_version = 770 then
    tx (":WAV:SWE:STAR " ++ toString wavelength ++ "nm")
  else if (1480 ≤ wavelength ∧ wavelength ≤ 1640) ∧ tsl_version = 550 then
    tx (":WAV:SWE:STAR " ++ toString wavelength)
  else
    M.throw .valueError

/-- `STS.set_start_wavelength`, decorated. -/
def set_start_wavelength (wavelength : ℚ) : M Unit :=
  exception_handler (set_start_wavelength_inner wavelength)

/-- tsl.py lines 425–442, body of `STS.set_stop_wavelength`. -/
def set_stop_wavelength_inner (wavelength : ℚ) : M Unit :=
  if (1480 ≤ wavelength ∧ wavelength ≤ 1640) ∧ tsl_version = 770 then
    tx (":WAV:SWE:STOP " ++ toString wavelength ++ "nm")
  else if (1480 ≤ wavelength ∧ wavelength ≤ 1640) ∧ tsl_version = 550 then
    tx (":WAV:SWE:STOP " ++ toString wavelength)
  else
    M.throw .valueError

/-- `STS.set_stop_wavelength`, decorated. -/
def set_stop_wavelength (wavelength : ℚ) : M Unit :=
  exception_handler (set_stop_wavelength_inner wavelength)

/-- tsl.py lines 501–518, body of `STS.set_sweep_speed`. -/
def set_sweep_speed_inner (speed : ℚ) : M Unit :=
  if (1 / 2 ≤ speed ∧ speed ≤ 200) ∧ tsl_version = 770 then
    tx (":WAV:SWE:SPE " ++ toString speed ++ "nm/s")
  else if (1 / 2 ≤ speed ∧ speed ≤ 200) ∧ tsl_version = 550 then
    tx (":WAVE:SWE:SPE " ++ toString speed)
  else
    M.throw .valueError

/-- `STS.set_sweep_speed`, decorated. -/
def set_sweep_speed (speed : ℚ) : M Unit :=
  exception_handler (set_sweep_speed_inner speed)

/-- tsl.py lines 540–543: `STS.start_sweep`. -/
def start_sweep : M Unit := tx ":WAV:SWE 1"

/-- tsl.py lines 565–568: `STS.stop_sweep`. -/
def stop_sweep : M Unit := tx ":WAV:SWE 0"

/-! ## sts.py — the sweep acquisition engine -/

/-- sts.py line 28: the Red Pitaya circular-buffer size. -/
def BUFFER_SIZE : ℤ := 16384

/-- sts.py lines 48–70: `get_data`.  Queries the current write pointer; on
wraparound (`current < previous`) drains `[previous, BUFFER_SIZE)` then
`[1, current)` as two segment requests, otherwise drains the single segment
`[previous, current)`; returns the reply text joined with a comma, with the
leading comma removed (`buffer_string[1:]`), together with the new pointer. -/
def get_data (previous_pointer : ℤ) : M (List Char × ℤ) := do
  let current_pointer ← get_write_pointer
  if current_pointer < previous_pointer then
    let d1 ← get_data_N "SOUR1" previous_pointer (BUFFER_SIZE - previous_pointer)
    let d2 ← get_data_N "SOUR1" 1 (current_pointer - 1)
    M.pure ((([] ++ [','] ++ d1 ++ [','] ++ d2).drop 1), current_pointer)
  else
    let d1 ← get_data_N "SOUR1" previous_pointer (current_pointer - previous_pointer)
    M.pure ((([] ++ [','] ++ d1).drop 1), current_pointer)

/-- sts.py lines 73–85: `set_sweep_parameters` forwards the four fields to
the decorated setters, in source order. -/
def set_sweep_parameters (parameters : sweep_parameters_class) : M Unit := do
  set_start_wavelength parameters.start_wavelength
  set_stop_wavelength parameters.stop_wavelength
  set_sweep_speed parameters.speed
  set_power parameters.power

/-- sts.py lines 128–135: the polling loop of `sweep_STS`.  Each iteration
queries the trigger status; on `"TD"` it stops logging and exits, otherwise
it drains via `get_data` and appends the segment text after a comma.  The
fuel argument bounds the number of iterations (the scripts of a scenario
determine when `"TD"` arrives; exhausted fuel yields the `scriptEnd` model
artifact). -/
def sweep_loop : ℕ → ℤ → List Char → M (List Char × ℤ)
  | 0, _, _ => M.throw .scriptEnd
  | fuel + 1, previous_pointer, buffer_string => do
    let st ← get_trigger_state
    if st = "TD" then do
      stop_logging
      M.pure (buffer_string, previous_pointer)
    else do
      let r ← get_data previous_pointer
      sweep_loop fuel r.2 (buffer_string ++ [','] ++ r.1)

/-- sts.py lines 98–124 of `sweep_STS`: configuration and arming, up to the
software trigger; returns the recorded `previous_pointer`.  The `time.sleep`
calls and wall-clock timestamps have no effect on the data path and are not
modelled. -/
def sweep_setup : M ℤ := do
  set_external_trigger 0
  set_trigger_output "Stop"
  set_trigger_standby 1
  stop_logging
  set_averaging "OFF"
  set_decimation 2048
  set_data_units "Volts"
  set_trigger_level 1
  start_sweep
  start_logging
  let previous_pointer ← get_write_pointer
  set_trigger_state "CH2_NE"
  send_software_trigger
  M.pure previous_pointer

/-- sts.py lines 98–140 of `sweep_STS`: configuration and arming
(`sweep_setup`), the polling loop and the final tail drain, producing the
raw accumulated buffer string (still with its leading comma). -/
def sweep_core (fuel : ℕ) : M (List Char) := do
  let previous_pointer ← sweep_setup
  let r ← sweep_loop fuel previous_pointer []
  let rf ← get_data r.2
  M.pure (r.1 ++ [','] ++ rf.1)

/-- sts.py lines 88–148: `sweep_STS` = configuration/acquisition
(`sweep_core`), then lines 142–145 (`buffer_string[1:]` and the parsing
pipeline), then `stop_sweep` and the return of the parsed data.  The
returned `acquisition_time` is wall-clock time, outside the model. -/
def sweep_STS (fuel : ℕ) : M (List ℚ) := do
  let bs ← sweep_core fuel
  let data ← M.ofExcept (parse_buffer_string (bs.drop 1))
  stop_sweep
  M.pure data

/-! ## main.py — the wavelength mapper -/

/-- `numpy.linspace(a, b, n)`: `n` evenly spaced points from `a` to `b`
inclusive (for `n = 1` numpy returns `[a]`, for `n = 0` the empty array). -/
def linspace (a b : ℚ) : ℕ → List ℚ
  | 0 => []
  | 1 => [a]
  | n + 2 => (List.range (n + 2)).map (fun i : ℕ => a + (b - a) * (i : ℚ) / ((n : ℚ) + 1))

/-- main.py lines 68–99: `plot_data` (the wavelength mapper), modelled up to
its data result (the matplotlib rendering draws `(wave, data)` and is not
modelled).  `params` is, per the docstring, the list
`[minwave, maxwave, speed, power]`.  Computes the uniform time axis with
`np.linspace(0, acquisition_time, len(y_data))`; keeps the values
`≥ acquisition_time - (params[1] - params[0]) / params[2]` (a
`ZeroDivisionError` if the comprehension evaluates the condition with
`params[2] == 0`, i.e. when the axis is non-empty); takes `t[-1]` (an
`IndexError` when nothing is retained); maps the retained times with
`params[1] + params[2] * (t - t[-1])` (numpy broadcasting over the list);
pairs with `y_data[-len(wave):]`.  A `params` list shorter than 3 raises
`IndexError` in Python; it is mapped to the same error here. -/
def plot_data (y_data : List ℚ) (acquisition_time : ℚ) (params : List ℚ) :
    Except PyError (List ℚ × List ℚ) :=
  match params with
  | p0 :: p1 :: p2 :: _ =>
    let t0 := linspace 0 acquisition_time y_data.length
    if t0 ≠ [] ∧ p2 = 0 then .error .zeroDivisionError
    else
      let t := t0.filter (fun v => acquisition_time - (p1 - p0) / p2 ≤ v)
      match t.getLast? with
      | none => .error .indexError
      | some tlast =>
        let wave := t.map (fun v => p1 + p2 * (v - tlast))
        .ok (wave, y_data.drop (y_data.length - wave.length))
  | _ => .error .indexError

/-! ## Lemmas about the string pipeline -/

theorem splitOnChar_ne_nil (c : Char) (l : List Char) : splitOnChar c l ≠ [] := by
  induction l with
  | nil => simp [splitOnChar]
  | cons x xs ih =>
    rw [splitOnChar]
    rcases h : splitOnChar c xs with _ | ⟨t, ts⟩
    · exact absurd h ih
    · by_cases hx : x = c <;> simp [hx]

theorem splitOnChar_of_not_mem {c : Char} {a : List Char} (h : c ∉ a) :
    splitOnChar c a = [a] := by
  induction a with
  | nil => rfl
  | cons x xs ih =>
    have hx : ¬x = c := fun hc => h (hc ▸ List.mem_cons_self x xs)
    have hxs : c ∉ xs := fun hc => h (List.mem_cons_of_mem x hc)
    rw [splitOnChar, ih hxs]
    simp [hx]

theorem splitOnChar_append_cons {c : Char} {a : List Char} (b : List Char) (h : c ∉ a) :
    splitOnChar c (a ++ c :: b) = a :: splitOnChar c b := by
  induction a with
  | nil =>
    rw [List.nil_append, splitOnChar]
    rcases hb : splitOnChar c b with _ | ⟨t, ts⟩
    · exact absurd hb (splitOnChar_ne_nil c b)
    · simp
  | cons x xs ih =>
    have hx : ¬x = c := fun hc => h (hc ▸ List.mem_cons_self x xs)
    have hxs : c ∉ xs := fun hc => h (List.mem_cons_of_mem x hc)
    rw [List.cons_append, splitOnChar, ih hxs]
    simp [hx]

/-- Join token lists with a single comma between adjacent tokens (the shape
of the instrument's bracketed reply body, and of the engine's comma-joined
accumulation). -/
def icomma : List (List Char) → List Char
  | [] => []
  | [t] => t
  | t :: t2 :: ts => t ++ ',' :: icomma (t2 :: ts)

theorem icomma_cons (t : List Char) (L : List (List Char)) (h : L ≠ []) :
    icomma (t :: L) = t ++ ',' :: icomma L := by
  cases L with
  | nil => exact absurd rfl h
  | cons t2 ts => rfl

theorem icomma_append {a : List (List Char)} (b : List (List Char))
    (ha : a ≠ []) (hb : b ≠ []) :
    icomma (a ++ b) = icomma a ++ ',' :: icomma b := by
  induction a with
  | nil => exact absurd rfl ha
  | cons t ts ih =>
    cases ts with
    | nil =>
      cases b with
      | nil => exact absurd rfl hb
      | cons b1 bs => rw [List.singleton_append, icomma_cons t (b1 :: bs) (by simp), icomma]
    | cons t2 ts2 =>
      rw [List.cons_append, icomma_cons t (t2 :: ts2 ++ b) (by simp),
        icomma_cons t (t2 :: ts2) (by simp), ih (by simp)]
      simp [List.append_assoc]

theorem splitOnChar_icomma {L : List (List Char)}
    (h : ∀ t ∈ L, ',' ∉ t) (hL : L ≠ []) :
    splitOnChar ',' (icomma L) = L := by
  induction L with
  | nil => exact absurd rfl hL
  | cons t ts ih =>
    cases ts with
    | nil => exact splitOnChar_of_not_mem (h t (by simp))
    | cons t2 ts2 =>
      rw [icomma_cons t (t2 :: ts2) (by simp),
        splitOnChar_append_cons _ (h t (by simp)),
        ih (fun u hu => h u (List.mem_cons_of_mem t hu)) (by simp)]

theorem mem_icomma {c : Char} {L : List (List Char)} (h : c ∈ icomma L) :
    c = ',' ∨ ∃ t ∈ L, c ∈ t := by
  induction L with
  | nil => simp [icomma] at h
  | cons t ts ih =>
    cases ts with
    | nil =>
      right
      exact ⟨t, by simp, h⟩
    | cons t2 ts2 =>
      rw [icomma_cons t (t2 :: ts2) (by simp)] at h
      rcases List.mem_append.1 h with h1 | h1
      · exact Or.inr ⟨t, by simp, h1⟩
      · rcases List.mem_cons.1 h1 with h2 | h2
        · exact Or.inl h2
        · rcases ih h2 with h3 | ⟨u, hu, hcu⟩
          · exact Or.inl h3
          · exact Or.inr ⟨u, List.mem_cons_of_mem t hu, hcu⟩

theorem listReplaceFuel_of_not_mem {p : Char} {ps rep : List Char} {l : List Char}
    (fuel : ℕ) (h : p ∉ l) : listReplaceFuel p ps rep fuel l = l := by
  induction fuel generalizing l with
  | zero => cases l <;> rfl
  | succ n ih =>
    cases l with
    | nil => rfl
    | cons x xs =>
      have hx : ¬(p :: ps).isPrefixOf (x :: xs) := by
        intro hpre
        rcases List.isPrefixOf_iff_prefix.1 hpre with ⟨r, hr⟩
        have : p = x := by
          have := congrArg (fun t => t.head?) hr
          simpa using this
        exact h (this ▸ List.mem_cons_self x xs)
      rw [listReplaceFuel, if_neg hx,
        ih (fun hc => h (List.mem_cons_of_mem x hc))]

theorem listReplace_of_not_mem {p : Char} {ps rep : List Char} {l : List Char}
    (h : p ∉ l) : listReplace p ps rep l = l :=
  listReplaceFuel_of_not_mem l.length h

theorem listReplaceFuel_single {c : Char} {l : List Char} {fuel : ℕ}
    (h : l.length ≤ fuel) :
    listReplaceFuel c [] [] fuel l = l.filter (fun x => !(x == c)) := by
  induction fuel generalizing l with
  | zero =>
    cases l with
    | nil => rfl
    | cons x xs => simp at h
  | succ n ih =>
    cases l with
    | nil => rfl
    | cons x xs =>
      have hn : xs.length ≤ n := by
        have := h
        simp only [List.length_cons] at this
        omega
      by_cases hx : x = c
      · have hpre : [c].isPrefixOf (x :: xs) := by
          simp [hx, List.isPrefixOf_iff_prefix]
        rw [listReplaceFuel, if_pos hpre]
        simp [hx, ih hn]
      · have hpre : ¬[c].isPrefixOf (x :: xs) := by
          simp [List.isPrefixOf_iff_prefix]
          intro hc
          exact absurd hc.symm hx
        rw [listReplaceFuel, if_neg hpre]
        simp [hx, ih hn]

theorem listReplace_single (c : Char) (l : List Char) :
    listReplace c [] [] l = l.filter (fun x => !(x == c)) :=
  listReplaceFuel_single le_rfl

/-- Characters surviving the two brace-removing `replace` calls. -/
def braceFree (c : Char) : Bool := !(c == '\x7b') && !(c == '\x7d')

theorem filter_dropWhile_of {q bf : Char → Bool} {l : List Char}
    (h : ∀ x ∈ l, q x = true → bf x = false) :
    (l.dropWhile q).filter bf = l.filter bf := by
  induction l with
  | nil => rfl
  | cons x xs ih =>
    rw [List.dropWhile_cons]
    by_cases hq : q x = true
    · rw [if_pos hq, ih (fun y hy => h y (List.mem_cons_of_mem x hy)),
        List.filter_cons, h x (List.mem_cons_self x xs) hq]
      simp
    · rw [if_neg hq]

theorem mem_stripChars {set l : List Char} {x : Char} (h : x ∈ stripChars set l) :
    x ∈ l := by
  unfold stripChars at h
  have h1 := List.mem_reverse.1 h
  have h2 := (List.dropWhile_sublist _).subset h1
  have h3 := List.mem_reverse.1 h2
  exact (List.dropWhile_sublist _).subset h3

theorem filter_stripChars {set : List Char} {bf : Char → Bool} {l : List Char}
    (h : ∀ x ∈ l, set.contains x = true → bf x = false) :
    (stripChars set l).filter bf = l.filter bf := by
  unfold stripChars
  have hsub : ∀ x ∈ (List.dropWhile (set.contains ·) l).reverse, x ∈ l := by
    intro x hx
    exact (List.dropWhile_sublist _).subset (List.mem_reverse.1 hx)
  rw [List.filter_reverse]
  rw [filter_dropWhile_of (fun y hy hq => h y (hsub y hy) hq)]
  rw [List.filter_reverse, List.reverse_reverse]
  rw [filter_dropWhile_of h]

/-- Pipeline characterization: on a string without spaces, newlines or
carriage returns (the shape every assembled buffer string in the verified
scenarios has), lines 143–145 reduce to: remove all braces, split on commas,
drop the final token, convert. -/
theorem parse_buffer_string_eq {l : List Char}
    (hsp : ∀ x ∈ l, ¬x = ' ') (hnr : ∀ x ∈ l, ¬x = '\n' ∧ ¬x = '\r') :
    parse_buffer_string l = mapFloat (splitOnChar ',' (l.filter braceFree)).dropLast := by
  unfold parse_buffer_string
  have hs1 : (' ' : Char) ∉ stripChars pyStripSet l :=
    fun hc => hsp _ (mem_stripChars hc) rfl
  rw [listReplace_of_not_mem hs1, listReplace_single, listReplace_single,
    List.filter_filter]
  have hff : (stripChars pyStripSet l).filter
      (fun a => (!(a == '\x7d')) && (!(a == '\x7b'))) = l.filter braceFree := by
    have hcongr : (stripChars pyStripSet l).filter
        (fun a => (!(a == '\x7d')) && (!(a == '\x7b')))
        = (stripChars pyStripSet l).filter braceFree := by
      apply List.filter_congr
      intro x _
      simp [braceFree, Bool.and_comm]
    rw [hcongr]
    apply filter_stripChars
    intro x hx hq
    rcases hnr x hx with ⟨hn, hr⟩
    have hmem : x ∈ pyStripSet := List.mem_of_elem_eq_true hq
    simp only [pyStripSet, List.mem_cons, List.not_mem_nil, or_false] at hmem
    rcases hmem with h1 | h1 | h1 | h1 <;>
      simp [braceFree, h1] at hn hr ⊢
  rw [hff]

theorem mapFloat_append_ok {a : List (List Char)} {va : List ℚ} {b : List (List Char)}
    (h : mapFloat a = .ok va) :
    mapFloat (a ++ b) =
      (match mapFloat b with
       | .ok vb => .ok (va ++ vb)
       | .error e => .error e) := by
  induction a generalizing va with
  | nil =>
    rw [mapFloat] at h
    cases h
    rw [List.nil_append]
    cases hb : mapFloat b <;> simp
  | cons t ts ih =>
    rw [mapFloat] at h
    rw [List.cons_append, mapFloat]
    cases hf : pyFloat t with
    | none => rw [hf] at h; cases h
    | some q =>
      rw [hf] at h
      simp only [hf]
      cases hts : mapFloat ts with
      | error e => rw [hts] at h; cases h
      | ok qs =>
        rw [hts] at h
        cases h
        rw [ih hts]
        cases hb : mapFloat b <;> simp

theorem mapFloat_replicate {tok : List Char} {v : ℚ} (h : pyFloat tok = some v) (n : ℕ) :
    mapFloat (List.replicate n tok) = .ok (List.replicate n v) := by
  induction n with
  | zero => rfl
  | succ k ih =>
    rw [List.replicate_succ, mapFloat, h, ih, List.replicate_succ]

/-! ## The instrument's bracketed reply format and the engine's assembly -/

/-- A bracketed instrument reply carrying the given value tokens:
`{t1,t2,...,tn}` (what `ACQ:SOUR1:DATA:STA:N?` answers). -/
def mkReply (toks : List (List Char)) : List Char :=
  '\x7b' :: (icomma toks ++ ['\x7d'])

/-- The engine's accumulation of drained reply texts: starting from the
empty string it appends `"," + text` for each drain, exactly as
sts.py lines 134–140 build `buffer_string`. -/
def assembleReplies (replies : List (List Char)) : List Char :=
  replies.foldl (fun acc r => acc ++ [','] ++ r) []

/-- Lines 134–145 as one function of the drained reply texts: assemble,
take `[1:]`, parse. -/
def assembleParse (replies : List (List Char)) : Except PyError (List ℚ) :=
  parse_buffer_string ((assembleReplies replies).drop 1)

theorem foldl_assemble (a : List Char) (rs : List (List Char)) :
    rs.foldl (fun acc r => acc ++ [','] ++ r) a = a ++ assembleReplies rs := by
  induction rs generalizing a with
  | nil => simp [assembleReplies]
  | cons r rest ih =>
    rw [assembleReplies, List.foldl_cons, List.foldl_cons, ih, ih ([] ++ [','] ++ r)]
    simp [List.append_assoc]

theorem assembleReplies_eq {rs : List (List Char)} (h : rs ≠ []) :
    assembleReplies rs = ',' :: icomma rs := by
  induction rs with
  | nil => exact absurd rfl h
  | cons r rest ih =>
    rw [assembleReplies, List.foldl_cons, foldl_assemble]
    cases rest with
    | nil => simp [assembleReplies, icomma]
    | cons r2 rest2 =>
      rw [ih (by simp), icomma_cons r (r2 :: rest2) (by simp)]
      simp

theorem filter_icomma (bf : Char → Bool) (L : List (List Char)) (hbf : bf ',' = true) :
    (icomma L).filter bf = icomma (L.map (fun t => t.filter bf)) := by
  induction L with
  | nil => rfl
  | cons t ts ih =>
    cases ts with
    | nil => rfl
    | cons t2 ts2 =>
      rw [icomma_cons t (t2 :: ts2) (by simp), List.filter_append, List.filter_cons, hbf,
        if_pos rfl, ih]
      simp only [List.map_cons]
      rw [icomma_cons (t.filter bf) (t2.filter bf :: ts2.map (fun u => u.filter bf)) (by simp)]

theorem filter_eq_self_of_braceless {t : List Char}
    (h : ∀ c ∈ t, ¬c = '\x7b' ∧ ¬c = '\x7d') : t.filter braceFree = t := by
  apply List.filter_eq_self.mpr
  intro a ha
  simp [braceFree, (h a ha).1, (h a ha).2]

theorem icomma_map_icomma {segs : List (List (List Char))}
    (h : ∀ s ∈ segs, s ≠ []) (hs : segs ≠ []) :
    icomma (segs.map icomma) = icomma segs.flatten := by
  induction segs with
  | nil => exact absurd rfl hs
  | cons s rest ih =>
    cases rest with
    | nil => simp [icomma]
    | cons s2 rest2 =>
      have hjoin : (s2 :: rest2).flatten ≠ [] := by
        rw [List.flatten_cons]
        have : s2 ≠ [] := h s2 (by simp)
        intro hc
        exact this (List.append_eq_nil.1 hc).1
      rw [List.map_cons, icomma_cons (icomma s) ((s2 :: rest2).map icomma) (by simp),
        List.flatten_cons,
        icomma_append _ (h s (by simp)) hjoin,
        ih (fun u hu => h u (List.mem_cons_of_mem s hu)) (by simp)]

/-- Value tokens that may appear in an instrument reply body: non-empty and
free of the delimiter, brace and whitespace characters the pipeline reacts
to. -/
def GoodTok (t : List Char) : Prop :=
  t ≠ [] ∧ ∀ c ∈ t, ¬c = ',' ∧ ¬c = '\x7b' ∧ ¬c = '\x7d' ∧ ¬c = ' ' ∧ ¬c = '\n' ∧ ¬c = '\r'

instance (t : List Char) : Decidable (GoodTok t) := by
  unfold GoodTok
  infer_instance

theorem mem_mkReply {c : Char} {toks : List (List Char)} (h : c ∈ mkReply toks) :
    c = '\x7b' ∨ c = '\x7d' ∨ c ∈ icomma toks := by
  unfold mkReply at h
  rcases List.mem_cons.1 h with h1 | h1
  · exact Or.inl h1
  · rcases List.mem_append.1 h1 with h2 | h2
    · exact Or.inr (Or.inr h2)
    · exact Or.inr (Or.inl (by simpa using h2))

/-- Characters of the assembled multi-reply body: only commas, braces and
token characters occur, so no whitespace. -/
theorem assembled_chars {segs : List (List (List Char))}
    (htok : ∀ s ∈ segs, ∀ t ∈ s, GoodTok t) :
    ∀ x ∈ icomma (segs.map mkReply), ¬x = ' ' ∧ ¬x = '\n' ∧ ¬x = '\r' := by
  intro x hx
  rcases mem_icomma hx with h1 | ⟨r, hr, hxr⟩
  · subst h1; refine ⟨by decide, by decide, by decide⟩
  · rcases List.mem_map.1 hr with ⟨s, hs, rfl⟩
    rcases mem_mkReply hxr with h2 | h2 | h2
    · subst h2; exact ⟨by decide, by decide, by decide⟩
    · subst h2; exact ⟨by decide, by decide, by decide⟩
    · rcases mem_icomma h2 with h3 | ⟨t, ht, hxt⟩
      · subst h3; exact ⟨by decide, by decide, by decide⟩
      · rcases (htok s hs t ht).2 x hxt with ⟨_, _, _, h4, h5, h6⟩
        exact ⟨h4, h5, h6⟩

theorem filter_mkReply {s : List (List Char)} (h : ∀ t ∈ s, GoodTok t) :
    (mkReply s).filter braceFree = icomma s := by
  unfold mkReply
  rw [List.filter_cons]
  have hlb : braceFree '\x7b' = false := by decide
  rw [hlb, if_neg (by simp), List.filter_append,
    filter_icomma braceFree s (by decide)]
  have hmap : s.map (fun t => t.filter braceFree) = s := by
    induction s with
    | nil => rfl
    | cons t ts ih =>
      rw [List.map_cons,
        filter_eq_self_of_braceless (fun c hc => ⟨((h t (by simp)).2 c hc).2.1,
          ((h t (by simp)).2 c hc).2.2.1⟩),
        ih (fun u hu => h u (List.mem_cons_of_mem t hu))]
  rw [hmap]
  simp [braceFree]

theorem filter_assembled {segs : List (List (List Char))}
    (htok : ∀ s ∈ segs, ∀ t ∈ s, GoodTok t) :
    (icomma (segs.map mkReply)).filter braceFree = icomma (segs.map icomma) := by
  rw [filter_icomma braceFree (segs.map mkReply) (by decide), List.map_map]
  have hmap : segs.map ((fun t => t.filter braceFree) ∘ mkReply) = segs.map icomma := by
    apply List.map_congr_left
    intro s hs
    exact filter_mkReply (htok s hs)
  rw [hmap]

theorem splitOnChar_icomma_append {s : List (List Char)} (b : List Char)
    (hs : s ≠ []) (h : ∀ t ∈ s, ',' ∉ t) :
    splitOnChar ',' (icomma s ++ ',' :: b) = s ++ splitOnChar ',' b := by
  induction s with
  | nil => exact absurd rfl hs
  | cons t ts ih =>
    cases ts with
    | nil =>
      rw [icomma, splitOnChar_append_cons b (h t (by simp)), List.singleton_append]
    | cons t2 ts2 =>
      rw [icomma_cons t (t2 :: ts2) (by simp), List.append_assoc, List.cons_append,
        splitOnChar_append_cons _ (h t (by simp)),
        ih (by simp) (fun u hu => h u (List.mem_cons_of_mem t hu))]
      simp

theorem splitOnChar_cons_self (c : Char) (xs : List Char) :
    splitOnChar c (c :: xs) = [] :: splitOnChar c xs := by
  rcases h : splitOnChar c xs with _ | ⟨t, ts⟩
  · exact absurd h (splitOnChar_ne_nil c xs)
  · rw [splitOnChar, h]
    simp

/-- The token list a drained segment contributes after splitting: an empty
segment reply (`{}`) contributes one empty token, a non-empty one its own
tokens. -/
def segTokens (s : List (List Char)) : List (List Char) :=
  if s = [] then [[]] else s

theorem split_icomma_map {segs : List (List (List Char))} (hne : segs ≠ [])
    (h : ∀ s ∈ segs, ∀ t ∈ s, ',' ∉ t) :
    splitOnChar ',' (icomma (segs.map icomma)) = (segs.map segTokens).flatten := by
  induction segs with
  | nil => exact absurd rfl hne
  | cons s rest ih =>
    cases rest with
    | nil =>
      rcases eq_or_ne s [] with hs | hs
      · subst hs; rfl
      · rw [List.map_cons, List.map_nil, icomma, List.map_cons, List.map_nil,
          List.flatten_cons, List.flatten_nil, List.append_nil,
          splitOnChar_icomma (h s (by simp)) hs]
        simp [segTokens, hs]
    | cons s2 rest2 =>
      have ih' := ih (by simp) (fun v hv => h v (List.mem_cons_of_mem s hv))
      simp only [List.map_cons, List.flatten_cons] at ih' ⊢
      rcases eq_or_ne s [] with hs | hs
      · subst hs
        rw [show icomma ([] : List (List Char)) = [] from rfl,
          icomma_cons [] (icomma s2 :: rest2.map icomma) (by simp),
          List.nil_append, splitOnChar_cons_self, ih']
        simp [segTokens]
      · rw [icomma_cons (icomma s) (icomma s2 :: rest2.map icomma) (by simp),
          splitOnChar_icomma_append _ hs (h s (by simp)), ih']
        simp [segTokens, hs]

/-- Parse of an assembled sequence of bracketed replies, reduced to the
token level: assemble (lines 134–140), take `[1:]` (line 142), parse
(lines 143–145) equals: split every reply into its tokens (an empty reply
contributing one empty token), drop the final token, convert. -/
theorem assembleParse_eq {segs : List (List (List Char))} (hne : segs ≠ [])
    (htok : ∀ s ∈ segs, ∀ t ∈ s, GoodTok t) :
    assembleParse (segs.map mkReply) =
      mapFloat ((segs.map segTokens).flatten).dropLast := by
  unfold assembleParse
  have hmapne : segs.map mkReply ≠ [] := by
    intro hc
    exact hne (List.map_eq_nil_iff.1 hc)
  rw [assembleReplies_eq hmapne]
  have hdrop : (',' :: icomma (segs.map mkReply)).drop 1 = icomma (segs.map mkReply) := rfl
  rw [hdrop]
  have hch := assembled_chars htok
  rw [parse_buffer_string_eq (fun x hx => (hch x hx).1)
      (fun x hx => ⟨(hch x hx).2.1, (hch x hx).2.2⟩),
    filter_assembled htok,
    split_icomma_map hne (fun s hs t ht hc => ((htok s hs t ht).2 ',' hc).1 rfl)]

/-! ## Run-equation helpers for stepping through concrete scenarios -/

theorem bind_ok {α β : Type} {x : M α} {s s' : RunSt} {a : α}
    (f : α → M β) (hx : x s = (.ok a, s')) : (x >>= f) s = f a s' := by
  rw [M.run_bind, hx]

theorem bind_error {α β : Type} {x : M α} {s s' : RunSt} {e : PyError}
    (f : α → M β) (hx : x s = (.error e, s')) : (x >>= f) s = (.error e, s') := by
  rw [M.run_bind, hx]

/-- Running `get_trigger_state` against a scripted reply.  The output state
is supplied by the caller (usually as a named literal record, with `rfl`
discharging `hout`), which keeps rewriting chains over concrete scenarios
readable and fast. -/
theorem get_trigger_state_run {s : RunSt} {r : Except PyError String}
    {rest : List (Except PyError String)} (s' : RunSt) (h : s.trigRem = r :: rest)
    (hout : { s with trigRem := rest, sent := s.sent ++ ["ACQ:TRIG:STAT?"] } = s') :
    get_trigger_state s = (r, s') := by
  subst hout
  show (tx "ACQ:TRIG:STAT?" >>= fun _ => rx_trig) s = _
  simp only [M.run_bind, tx, rx_trig, h]

/-- Running `get_write_pointer` against a scripted reply. -/
theorem get_write_pointer_run {s : RunSt} {r : Except PyError ℤ}
    {rest : List (Except PyError ℤ)} (s' : RunSt) (h : s.wposRem = r :: rest)
    (hout : { s with wposRem := rest, sent := s.sent ++ ["ACQ:WPOS?"] } = s') :
    get_write_pointer s = (r, s') := by
  subst hout
  show (tx "ACQ:WPOS?" >>= fun _ => rx_wpos) s = _
  simp only [M.run_bind, tx, rx_wpos, h]

/-- Running `get_data` when the pointer has not wrapped
(`previous ≤ current`): one segment request `[previous, current)`. -/
theorem get_data_run_nowrap {p cur : ℤ} {rest : List (Except PyError ℤ)}
    {s : RunSt} (s' : RunSt) (d : List Char) (hw : s.wposRem = .ok cur :: rest)
    (hge : ¬cur < p) (hseg : s.segReply p (cur - p) = .ok d)
    (hout : { s with
        wposRem := rest
        sent := (s.sent ++ ["ACQ:WPOS?"]) ++
          ["ACQ:" ++ "SOUR1" ++ ":DATA:STA:N? " ++ toString p ++ "," ++ toString (cur - p)]
        dataReqs := s.dataReqs ++ [(p, cur - p)] } = s') :
    get_data p s = (.ok (([] ++ [','] ++ d).drop 1, cur), s') := by
  subst hout
  rw [get_data, M.run_bind, get_write_pointer_run _ hw rfl]
  simp only [if_neg hge, M.run_bind, get_data_N, hseg, M.run_pure, M.pure]

/-- Running `get_data` when the pointer has wrapped (`current < previous`):
two segment requests, `[previous, BUFFER_SIZE)` then offset 1 for
`current - 1` samples. -/
theorem get_data_run_wrap {p cur : ℤ} {rest : List (Except PyError ℤ)}
    {s : RunSt} (s' : RunSt) (d1 d2 : List Char) (hw : s.wposRem = .ok cur :: rest)
    (hlt : cur < p) (hseg1 : s.segReply p (BUFFER_SIZE - p) = .ok d1)
    (hseg2 : s.segReply 1 (cur - 1) = .ok d2)
    (hout : { s with
        wposRem := rest
        sent := ((s.sent ++ ["ACQ:WPOS?"]) ++
          ["ACQ:" ++ "SOUR1" ++ ":DATA:STA:N? " ++ toString p ++ "," ++ toString (BUFFER_SIZE - p)]) ++
          ["ACQ:" ++ "SOUR1" ++ ":DATA:STA:N? " ++ toString (1 : ℤ) ++ "," ++ toString (cur - 1)]
        dataReqs := (s.dataReqs ++ [(p, BUFFER_SIZE - p)]) ++ [(1, cur - 1)] } = s') :
    get_data p s = (.ok (([] ++ [','] ++ d1 ++ [','] ++ d2).drop 1, cur), s') := by
  subst hout
  rw [get_data, M.run_bind, get_write_pointer_run _ hw rfl]
  simp only [if_pos hlt, M.run_bind, get_data_N, hseg1, hseg2, M.run_pure, M.pure]

/-- Running `get_data` when the write-pointer query itself fails: the
failure propagates and no segment request is made. -/
theorem get_data_run_error {p : ℤ} {e : PyError} {rest : List (Except PyError ℤ)}
    {s : RunSt} (s' : RunSt) (hw : s.wposRem = .error e :: rest)
    (hout : { s with wposRem := rest, sent := s.sent ++ ["ACQ:WPOS?"] } = s') :
    get_data p s = (.error e, s') := by
  subst hout
  rw [get_data, M.run_bind, get_write_pointer_run _ hw rfl]

/-- One loop iteration in the still-waiting case: any trigger reply other
than `"TD"` (recognized or not) makes the engine drain and poll again. -/
theorem sweep_loop_step_notTD {fuel : ℕ} {p : ℤ} {acc : List Char} {s : RunSt}
    {r : String} {rest : List (Except PyError String)} (s' : RunSt)
    (h : s.trigRem = .ok r :: rest) (hr : ¬r = "TD")
    (hout : { s with trigRem := rest, sent := s.sent ++ ["ACQ:TRIG:STAT?"] } = s') :
    sweep_loop (fuel + 1) p acc s =
      (get_data p >>= fun gd => sweep_loop fuel gd.2 (acc ++ [','] ++ gd.1)) s' := by
  subst hout
  rw [sweep_loop, M.run_bind, get_trigger_state_run _ h rfl]
  simp only [if_neg hr]

/-- One loop iteration on `"TD"`: stop logging and exit with the
accumulated string and the pointer. -/
theorem sweep_loop_step_TD {fuel : ℕ} {p : ℤ} {acc : List Char} {s : RunSt}
    {rest : List (Except PyError String)} (s' : RunSt)
    (h : s.trigRem = .ok "TD" :: rest)
    (hout : { s with
        trigRem := rest
        sent := (s.sent ++ ["ACQ:TRIG:STAT?"]) ++ ["ACQ:STOP"] } = s') :
    sweep_loop (fuel + 1) p acc s = (.ok (acc, p), s') := by
  subst hout
  rw [sweep_loop, M.run_bind, get_trigger_state_run _ h rfl]
  simp only [if_true, M.run_bind, stop_logging, tx, M.run_pure, M.pure]

/-- One loop iteration when the trigger-status query fails: the failure
propagates out of the loop. -/
theorem sweep_loop_step_error {fuel : ℕ} {p : ℤ} {acc : List Char} {s : RunSt}
    {e : PyError} {rest : List (Except PyError String)} (s' : RunSt)
    (h : s.trigRem = .error e :: rest)
    (hout : { s with trigRem := rest, sent := s.sent ++ ["ACQ:TRIG:STAT?"] } = s') :
    sweep_loop (fuel + 1) p acc s = (.error e, s') := by
  subst hout
  rw [sweep_loop, M.run_bind, get_trigger_state_run _ h rfl]

def oneTok : List Char := cs "1.0"

def constReply (n : ℕ) : List Char := mkReply (List.replicate n oneTok)

def envC2 : RunSt :=
  { trigRem := [.ok "WAIT", .ok "WAIT", .ok "TD"]
    wposRem := [.ok 1, .ok 4000, .ok 9000, .ok 9000]
    segReply := fun _ n => .ok (constReply n.toNat)
    sent := []
    dataReqs := []
    errLog := [] }

def sentSetup : List String :=
  [":TRIG:INP:EXT 0", ":TRIG:OUTP 1", ":TRIG:INP:STAN 1", "ACQ:STOP", "ACQ:AVG OFF",
   "ACQ:DEC 2048", "ACQ:DATA:UNITS VOLTS", "ACQ:TRIG:LEV 1", ":WAV:SWE 1", "ACQ:START",
   "ACQ:WPOS?", "ACQ:TRIG CH2_NE", ":TRIG:INP:SOFT"]

def segC2 : ℤ → ℤ → Except PyError (List Char) := fun _ n => .ok (constReply n.toNat)

def stC2a : RunSt :=
  { trigRem := [.ok "WAIT", .ok "WAIT", .ok "TD"]
    wposRem := [.ok 4000, .ok 9000, .ok 9000]
    segReply := segC2
    sent := sentSetup
    dataReqs := []
    errLog := [] }

def stC2b : RunSt :=
  { trigRem := [.ok "WAIT", .ok "TD"]
    wposRem := [.ok 4000, .ok 9000, .ok 9000]
    segReply := segC2
    sent := sentSetup ++ ["ACQ:TRIG:STAT?"]
    dataReqs := []
    errLog := [] }

def stC2c : RunSt :=
  { trigRem := [.ok "WAIT", .ok "TD"]
    wposRem := [.ok 9000, .ok 9000]
    segReply := segC2
    sent := sentSetup ++ ["ACQ:TRIG:STAT?", "ACQ:WPOS?", "ACQ:SOUR1:DATA:STA:N? 1,3999"]
    dataReqs := [(1, 3999)]
    errLog := [] }

def stC2d : RunSt :=
  { trigRem := [.ok "TD"]
    wposRem := [.ok 9000, .ok 9000]
    segReply := segC2
    sent := sentSetup ++ ["ACQ:TRIG:STAT?", "ACQ:WPOS?", "ACQ:SOUR1:DATA:STA:N? 1,3999",
      "ACQ:TRIG:STAT?"]
    dataReqs := [(1, 3999)]
    errLog := [] }

def stC2e : RunSt :=
  { trigRem := [.ok "TD"]
    wposRem := [.ok 9000]
    segReply := segC2
    sent := sentSetup ++ ["ACQ:TRIG:STAT?", "ACQ:WPOS?", "ACQ:SOUR1:DATA:STA:N? 1,3999",
      "ACQ:TRIG:STAT?", "ACQ:WPOS?", "ACQ:SOUR1:DATA:STA:N? 4000,5000"]
    dataReqs := [(1, 3999), (4000, 5000)]
    errLog := [] }

def stC2f : RunSt :=
  { trigRem := []
    wposRem := [.ok 9000]
    segReply := segC2
    sent := sentSetup ++ ["ACQ:TRIG:STAT?", "ACQ:WPOS?", "ACQ:SOUR1:DATA:STA:N? 1,3999",
      "ACQ:TRIG:STAT?", "ACQ:WPOS?", "ACQ:SOUR1:DATA:STA:N? 4000,5000",
      "ACQ:TRIG:STAT?", "ACQ:STOP"]
    dataReqs := [(1, 3999), (4000, 5000)]
    errLog := [] }

def stC2g : RunSt :=
  { trigRem := []
    wposRem := []
    segReply := segC2
    sent := sentSetup ++ ["ACQ:TRIG:STAT?", "ACQ:WPOS?", "ACQ:SOUR1:DATA:STA:N? 1,3999",
      "ACQ:TRIG:STAT?", "ACQ:WPOS?", "ACQ:SOUR1:DATA:STA:N? 4000,5000",
      "ACQ:TRIG:STAT?", "ACQ:STOP", "ACQ:WPOS?", "ACQ:SOUR1:DATA:STA:N? 9000,0"]
    dataReqs := [(1, 3999), (4000, 5000), (9000, 0)]
    errLog := [] }

def stC2h : RunSt :=
  { trigRem := []
    wposRem := []
    segReply := segC2
    sent := sentSetup ++ ["ACQ:TRIG:STAT?", "ACQ:WPOS?", "ACQ:SOUR1:DATA:STA:N? 1,3999",
      "ACQ:TRIG:STAT?", "ACQ:WPOS?", "ACQ:SOUR1:DATA:STA:N? 4000,5000",
      "ACQ:TRIG:STAT?", "ACQ:STOP", "ACQ:WPOS?", "ACQ:SOUR1:DATA:STA:N? 9000,0",
      ":WAV:SWE 0"]
    dataReqs := [(1, 3999), (4000, 5000), (9000, 0)]
    errLog := [] }

/-- Full run of `sweep_STS` on the C2 scenario: decimation 2048 is part of
the fixed setup; the trigger script reads Waiting, Waiting, Triggered; the
write pointer reads 1 (baseline), 4000, 9000, and 9000 again on the final
tail drain; every sample reads `1.0`. -/
theorem sweep_STS_C2_run :
    sweep_STS 3 envC2 = (Except.ok (List.replicate 8999 (1:ℚ)), stC2h) := by
  have hsetup : sweep_setup envC2 = (.ok 1, stC2a) := by rfl
  have hseg1 : stC2b.segReply 1 ((4000:ℤ) - 1) = .ok (constReply 3999) := by
    show Except.ok (constReply ((4000:ℤ) - 1).toNat) = _
    rw [show ((4000:ℤ) - 1).toNat = 3999 from by decide]
  have hseg2 : stC2d.segReply 4000 ((9000:ℤ) - 4000) = .ok (constReply 5000) := by
    show Except.ok (constReply ((9000:ℤ) - 4000).toNat) = _
    rw [show ((9000:ℤ) - 4000).toNat = 5000 from by decide]
  have hseg3 : stC2f.segReply 9000 ((9000:ℤ) - 9000) = .ok (constReply 0) := by
    show Except.ok (constReply ((9000:ℤ) - 9000).toNat) = _
    rw [show ((9000:ℤ) - 9000).toNat = 0 from by decide]
  rw [sweep_STS, M.run_bind, sweep_core, bind_ok _ hsetup]
  rw [M.run_bind, sweep_loop_step_notTD stC2b rfl (by decide) rfl, M.run_bind,
    get_data_run_nowrap stC2c (constReply 3999) rfl (by decide) hseg1 rfl]
  simp only []
  rw [show (2:ℕ) = 1 + 1 from rfl, sweep_loop_step_notTD stC2d rfl (by decide) rfl,
    M.run_bind, get_data_run_nowrap stC2e (constReply 5000) rfl (by decide) hseg2 rfl]
  simp only []
  rw [show (1:ℕ) = 0 + 1 from rfl, sweep_loop_step_TD stC2f rfl rfl]
  simp only []
  rw [M.run_bind, get_data_run_nowrap stC2g (constReply 0) rfl (by decide) hseg3 rfl]
  simp only []
  simp only [M.pure]
  simp only [List.nil_append]
  simp only [List.singleton_append]
  simp only [List.cons_append]
  simp only [List.drop_succ_cons]
  simp only [List.drop_zero]
  simp only [List.append_assoc]
  simp only [List.singleton_append]
  have hshape : (assembleReplies [constReply 3999, constReply 5000, constReply 0]).drop 1
      = constReply 3999 ++ ',' :: (constReply 5000 ++ ',' :: constReply 0) := by
    rw [assembleReplies, List.foldl_cons, List.foldl_cons, List.foldl_cons, List.foldl_nil]
    simp only [List.nil_append]
    simp only [List.singleton_append]
    simp only [List.cons_append]
    simp only [List.drop_succ_cons]
    simp only [List.drop_zero]
    simp only [List.append_assoc]
    simp only [List.singleton_append]
  rw [← hshape]
  have hp1 : pyFloatParts oneTok = some (false, 1, 0, 1) := by decide
  have h1 : pyFloat oneTok = some 1 := pyFloat_eval hp1 (by norm_num [partsVal])
  have htok : ∀ s ∈ [List.replicate 3999 oneTok, List.replicate 5000 oneTok,
      List.replicate 0 oneTok], ∀ t ∈ s, GoodTok t := by
    intro s hs t ht
    have hteq : t = oneTok := by
      rcases List.mem_cons.1 hs with rfl | hs2
      · exact List.eq_of_mem_replicate ht
      · rcases List.mem_cons.1 hs2 with rfl | hs3
        · exact List.eq_of_mem_replicate ht
        · rcases List.mem_cons.1 hs3 with rfl | hs4
          · exact List.eq_of_mem_replicate ht
          · simp at hs4
    subst hteq
    decide
  have hmapseg : ([List.replicate 3999 oneTok, List.replicate 5000 oneTok,
      List.replicate 0 oneTok].map segTokens).flatten
      = List.replicate 3999 oneTok ++ (List.replicate 5000 oneTok ++ [[]]) := by
    have h39 : segTokens (List.replicate 3999 oneTok) = List.replicate 3999 oneTok := by
      rw [segTokens, if_neg (List.replicate_succ_ne_nil 3998 oneTok)]
    have h50 : segTokens (List.replicate 5000 oneTok) = List.replicate 5000 oneTok := by
      rw [segTokens, if_neg (List.replicate_succ_ne_nil 4999 oneTok)]
    have h0seg : segTokens (List.replicate 0 oneTok) = [[]] := rfl
    simp only [List.map_cons, List.map_nil, List.flatten_cons, List.flatten_nil,
      h39, h50, h0seg, List.append_nil]
  have hparse : assembleParse [constReply 3999, constReply 5000, constReply 0]
      = .ok (List.replicate 8999 (1:ℚ)) := by
    rw [show [constReply 3999, constReply 5000, constReply 0]
        = List.map mkReply [List.replicate 3999 oneTok, List.replicate 5000 oneTok,
          List.replicate 0 oneTok] from rfl]
    have hne3 : ([List.replicate 3999 oneTok, List.replicate 5000 oneTok,
        List.replicate 0 oneTok] : List (List (List Char))) ≠ [] :=
      List.cons_ne_nil _ _
    rw [assembleParse_eq hne3 htok, hmapseg, ← List.append_assoc,
      List.dropLast_concat, mapFloat_append_ok (mapFloat_replicate h1 3999),
      mapFloat_replicate h1 5000]
    simp only []
    rw [← List.replicate_add]
  rw [show parse_buffer_string ((assembleReplies [constReply 3999, constReply 5000,
      constReply 0]).drop 1) = assembleParse [constReply 3999, constReply 5000,
      constReply 0] from rfl, hparse]
  simp only [M.run_bind, M.ofExcept, stop_sweep, tx, M.run_pure, M.pure]
  rfl

/-! ## Buffer offsets covered by segment requests -/

/-- The absolute buffer offsets a `get_data_N source start N` request
covers, per its docstring (redpitaya.py lines 170–174): positions `start`
(inclusive) through `start + N` (exclusive). -/
def reqOffsets (start N : ℤ) : List ℤ := (List.range N.toNat).map (fun i : ℕ => start + (i : ℤ))

/-- The offset interval `[a, b)` as a list. -/
def icoList (a b : ℤ) : List ℤ := (List.range (b - a).toNat).map (fun i : ℕ => a + (i : ℤ))

theorem mem_icoList {x a b : ℤ} (h : x ∈ icoList a b) : a ≤ x ∧ x < b := by
  rcases List.mem_map.1 h with ⟨i, hi, rfl⟩
  have hi2 : (i : ℤ) < b - a := by
    have := List.mem_range.1 hi
    exact Int.lt_toNat.1 this
  constructor
  · omega
  · omega

theorem icoList_nodup (a b : ℤ) : (icoList a b).Nodup := by
  apply List.Nodup.map
  · intro i j hij
    simpa using hij
  · exact List.nodup_range _


/-! ## Claim C1 -/

/-- C1: On every `get_data` poll in which the freshly read write pointer
`cur` is strictly below `previous_pointer` (wraparound, with the pointer at
or above the hardware's first addressable offset, `1 ≤ cur`), the engine drains
exactly two segments, in order: the request `(prev, BUFFER_SIZE - prev)`
covering offsets `[prev, BUFFER_SIZE)` followed by the request
`(1, cur - 1)` covering offsets `[1, cur)`; it returns `cur` as the new
`previous_pointer` (which `sweep_STS` assigns back), the drained offsets
never include offset 0, and no offset is drained twice. -/
theorem C1_wraparound_drains_two_segments (s : RunSt) (prev cur : ℤ)
    (rest : List (Except PyError ℤ)) (d1 d2 : List Char)
    (hw : s.wposRem = .ok cur :: rest) (hlt : cur < prev) (hcur : 1 ≤ cur)
    (hseg1 : s.segReply prev (BUFFER_SIZE - prev) = .ok d1)
    (hseg2 : s.segReply 1 (cur - 1) = .ok d2) :
    (get_data prev s).1 = .ok (d1 ++ ',' :: d2, cur) ∧
    (get_data prev s).2.dataReqs = s.dataReqs ++ [(prev, BUFFER_SIZE - prev), (1, cur - 1)] ∧
    reqOffsets prev (BUFFER_SIZE - prev) = icoList prev BUFFER_SIZE ∧
    reqOffsets 1 (cur - 1) = icoList 1 cur ∧
    (0 : ℤ) ∉ icoList prev BUFFER_SIZE ++ icoList 1 cur ∧
    (icoList prev BUFFER_SIZE ++ icoList 1 cur).Nodup := by
  rw [get_data_run_wrap _ d1 d2 hw hlt hseg1 hseg2 rfl]
  refine ⟨?_, ?_, rfl, rfl, ?_, ?_⟩
  · simp
  · simp
  · intro hmem
    rcases List.mem_append.1 hmem with h | h
    · rcases mem_icoList h with ⟨h1, _⟩
      omega
    · rcases mem_icoList h with ⟨h1, _⟩
      omega
  · apply List.Nodup.append (icoList_nodup _ _) (icoList_nodup _ _)
    intro x hx1 hx2
    rcases mem_icoList hx1 with ⟨ha1, _⟩
    rcases mem_icoList hx2 with ⟨_, hb2⟩
    omega

def envC1 : RunSt :=
  { trigRem := []
    wposRem := [.ok 50]
    segReply := fun _ _ => .ok (cs "\x7b1.0\x7d")
    sent := []
    dataReqs := []
    errLog := [] }

/-- Witness for C1: the claim's own concrete instance, `BUFFER_SIZE =
16384`, `previous_pointer = 16000`, `current = 50`: the two requests cover
exactly `[16000, 16384)` followed by `[1, 50)`. -/
theorem C1_wraparound_drains_two_segments_witness :
    envC1.wposRem = .ok 50 :: [] ∧ (50 : ℤ) < 16000 ∧ (1 : ℤ) ≤ 50 ∧
    ((get_data 16000 envC1).1 = .ok (cs "\x7b1.0\x7d" ++ ',' :: cs "\x7b1.0\x7d", 50) ∧
     (get_data 16000 envC1).2.dataReqs =
       envC1.dataReqs ++ [(16000, BUFFER_SIZE - 16000), (1, 50 - 1)] ∧
     reqOffsets 16000 (BUFFER_SIZE - 16000) = icoList 16000 BUFFER_SIZE ∧
     reqOffsets 1 (50 - 1) = icoList 1 50 ∧
     (0 : ℤ) ∉ icoList 16000 BUFFER_SIZE ++ icoList 1 50 ∧
     (icoList 16000 BUFFER_SIZE ++ icoList 1 50).Nodup) :=
  ⟨rfl, by decide, by decide,
   C1_wraparound_drains_two_segments envC1 16000 50 [] (cs "\x7b1.0\x7d") (cs "\x7b1.0\x7d")
     rfl (by decide) (by decide) rfl rfl⟩

/-! ## Claim C2 -/

/-- C2: the end-to-end sweep cycle at decimation 2048 (part of the fixed
configuration `sweep_STS` sends), with trigger status reading Waiting,
Waiting, Triggered over three polls and the write pointer reading 1
(baseline), 4000, 9000, and 9000 again on the final tail drain, drains
exactly the two segments `(1, 3999)` and `(4000, 5000)` — 3999 and 5000
samples — plus the empty final tail request `(9000, 0)`, and returns one
concatenated 8999-sample stream with no engine-level error. -/
theorem C2_end_to_end_sweep_cycle :
    (sweep_STS 3 envC2).1 = Except.ok (List.replicate 8999 (1 : ℚ)) ∧
    (List.replicate 8999 (1 : ℚ)).length = 8999 ∧
    (sweep_STS 3 envC2).2.dataReqs = [(1, 3999), (4000, 5000), (9000, 0)] := by
  rw [sweep_STS_C2_run]
  refine ⟨rfl, ?_, rfl⟩
  rw [List.length_replicate]

/-! ## Claim C8 -/

/-- C8 (amended): drain-segment reassembly is invariant under polling
cadence for polls that each drain at least one sample: for a fixed total
sequence of buffer writes (`segs.flatten`) split into `N` polls `segs`,
each non-empty, assembling and parsing the `N` bracketed replies yields
exactly the same stream as assembling and parsing the single reply carrying
all samples.  (With a zero-sample poll strictly inside, the assembled
string acquires an interior empty token and the final parse fails instead —
see the counterexample.) -/
theorem C8_reassembly_cadence_invariant (segs : List (List (List Char)))
    (h1 : segs ≠ []) (h2 : ∀ s ∈ segs, s ≠ [])
    (h3 : ∀ s ∈ segs, ∀ t ∈ s, GoodTok t) :
    assembleParse (segs.map mkReply) = assembleParse [mkReply segs.flatten] := by
  rw [assembleParse_eq h1 h3]
  have hflat_ne : segs.flatten ≠ [] := by
    cases segs with
    | nil => exact absurd rfl h1
    | cons s rest =>
      rw [List.flatten_cons]
      intro hc
      exact h2 s (by simp) (List.append_eq_nil.1 hc).1
  have h3' : ∀ s ∈ [segs.flatten], ∀ t ∈ s, GoodTok t := by
    intro s hs t ht
    rcases List.mem_cons.1 hs with rfl | hs2
    · rcases List.mem_flatten.1 ht with ⟨u, hu, htu⟩
      exact h3 u hu t htu
    · simp at hs2
  rw [show [mkReply segs.flatten] = [segs.flatten].map mkReply from rfl,
    assembleParse_eq (List.cons_ne_nil _ _) h3']
  have hmapL : segs.map segTokens = segs := by
    conv_rhs => rw [← List.map_id segs]
    apply List.map_congr_left
    intro s hs
    rw [segTokens, if_neg (h2 s hs)]
    rfl
  have hmapR : [segs.flatten].map segTokens = [segs.flatten] := by
    rw [List.map_cons, List.map_nil, segTokens, if_neg hflat_ne]
  rw [hmapL, hmapR, List.flatten_cons, List.flatten_nil, List.append_nil]

/-- Witness for the amended C8 at a concrete split: two one-sample polls
versus one two-sample poll. -/
theorem C8_reassembly_cadence_invariant_witness :
    ([[cs "1.0"], [cs "2.0"]] : List (List (List Char))) ≠ [] ∧
    (∀ s ∈ ([[cs "1.0"], [cs "2.0"]] : List (List (List Char))), s ≠ []) ∧
    (∀ s ∈ ([[cs "1.0"], [cs "2.0"]] : List (List (List Char))), ∀ t ∈ s, GoodTok t) ∧
    assembleParse ([[cs "1.0"], [cs "2.0"]].map mkReply) =
      assembleParse [mkReply ([[cs "1.0"], [cs "2.0"]] : List (List (List Char))).flatten] :=
  ⟨by decide, by decide, by decide,
   C8_reassembly_cadence_invariant [[cs "1.0"], [cs "2.0"]] (by decide) (by decide) (by decide)⟩

/-- C8 counterexample: the claim as stated also covers polls that drain
zero new samples, and there it fails.  For total writes `1.0, 2.0` drained
either in one poll or in three polls whose middle poll drains zero samples
(an empty `{}` reply), the single poll parses to a stream while the
three-poll assembly acquires an interior empty token, which the final
`float` conversion rejects — the outputs are not identical, the multi-poll
cycle errors instead. -/
theorem C8_zero_sample_poll_counterexample :
    assembleParse [mkReply [cs "1.0"], mkReply [], mkReply [cs "2.0"]]
      = .error .valueError ∧
    assembleParse [mkReply [cs "1.0", cs "2.0"]] = .ok [1] ∧
    assembleParse [mkReply [cs "1.0"], mkReply [], mkReply [cs "2.0"]]
      ≠ assembleParse [mkReply [cs "1.0", cs "2.0"]] := by
  have hp1 : pyFloatParts (cs "1.0") = some (false, 1, 0, 1) := by decide
  have hmulti : assembleParse [mkReply [cs "1.0"], mkReply [], mkReply [cs "2.0"]]
      = .error .valueError := by
    have htoks : (splitOnChar ','
        (listReplace '\x7d' [] [] (listReplace '\x7b' [] []
          (listReplace ' ' [' '] [] (stripChars pyStripSet
            ((assembleReplies [mkReply [cs "1.0"], mkReply [],
              mkReply [cs "2.0"]]).drop 1)))))).dropLast
        = [cs "1.0", [], cs "2.0"].dropLast := by decide
    rw [assembleParse, parse_buffer_string, htoks]
    rw [show ([cs "1.0", [], cs "2.0"] : List (List Char)).dropLast
      = [cs "1.0", []] from by decide]
    rw [mapFloat, pyFloat_eval hp1 rfl, mapFloat,
      pyFloat_none (by decide), mapFloat]
  have hsingle : assembleParse [mkReply [cs "1.0", cs "2.0"]] = .ok [1] := by
    have htoks : (splitOnChar ','
        (listReplace '\x7d' [] [] (listReplace '\x7b' [] []
          (listReplace ' ' [' '] [] (stripChars pyStripSet
            ((assembleReplies [mkReply [cs "1.0", cs "2.0"]]).drop 1)))))).dropLast
        = [cs "1.0"] := by decide
    rw [assembleParse, parse_buffer_string, htoks, mapFloat,
      pyFloat_eval hp1 (show partsVal (false, 1, 0, 1) = 1 from by norm_num [partsVal]),
      mapFloat]
  refine ⟨hmulti, hsingle, ?_⟩
  rw [hmulti, hsingle]
  intro hc
  cases hc

/-! ## Claim C5 -/

/-- C5: the segment-reply parsing step (sts.py lines 143–145) applied to
`"{ 1.0, 2.0, 3.0, }"` returns exactly `[1.0, 2.0, 3.0]`: braces and
whitespace are disposed of and the trailing token produced by the terminal
comma is dropped by `[:-1]` rather than converted; applied to the malformed
`"{1.0, x, 3.0}"` it fails with the conversion `ValueError` (the spec's
`ProtocolError`: an unparsable reply token). -/
theorem C5_parser_robustness :
    parse_buffer_string (cs "\x7b 1.0, 2.0, 3.0, \x7d") = .ok [1, 2, 3] ∧
    parse_buffer_string (cs "\x7b1.0, x, 3.0\x7d") = .error .valueError := by
  constructor
  · have htoks : (splitOnChar ','
        (listReplace '\x7d' [] [] (listReplace '\x7b' [] []
          (listReplace ' ' [' '] [] (stripChars pyStripSet
            (cs "\x7b 1.0, 2.0, 3.0, \x7d")))))).dropLast
        = [cs " 1.0", cs " 2.0", cs " 3.0"] := by decide
    rw [parse_buffer_string, htoks, mapFloat,
      pyFloat_eval (show pyFloatParts (cs " 1.0") = some (false, 1, 0, 1) from by decide)
        (show partsVal (false, 1, 0, 1) = 1 from by norm_num [partsVal]),
      mapFloat,
      pyFloat_eval (show pyFloatParts (cs " 2.0") = some (false, 2, 0, 1) from by decide)
        (show partsVal (false, 2, 0, 1) = 2 from by norm_num [partsVal]),
      mapFloat,
      pyFloat_eval (show pyFloatParts (cs " 3.0") = some (false, 3, 0, 1) from by decide)
        (show partsVal (false, 3, 0, 1) = 3 from by norm_num [partsVal]),
      mapFloat]
  · have htoks : (splitOnChar ','
        (listReplace '\x7d' [] [] (listReplace '\x7b' [] []
          (listReplace ' ' [' '] [] (stripChars pyStripSet
            (cs "\x7b1.0, x, 3.0\x7d")))))).dropLast
        = [cs "1.0", cs " x"] := by decide
    rw [parse_buffer_string, htoks, mapFloat,
      pyFloat_eval (show pyFloatParts (cs "1.0") = some (false, 1, 0, 1) from by decide)
        (show partsVal (false, 1, 0, 1) = 1 from by norm_num [partsVal]),
      mapFloat, pyFloat_none (by decide), mapFloat]

/-! ## Claim C7 -/

def envC7 : RunSt :=
  { trigRem := [.ok "GARBAGE", .ok "TD"]
    wposRem := [.ok 1, .ok 3, .ok 3]
    segReply := segC2
    sent := []
    dataReqs := []
    errLog := [] }

def stC7a : RunSt :=
  { trigRem := [.ok "GARBAGE", .ok "TD"]
    wposRem := [.ok 3, .ok 3]
    segReply := segC2
    sent := sentSetup
    dataReqs := []
    errLog := [] }

def stC7b : RunSt :=
  { trigRem := [.ok "TD"]
    wposRem := [.ok 3, .ok 3]
    segReply := segC2
    sent := sentSetup ++ ["ACQ:TRIG:STAT?"]
    dataReqs := []
    errLog := [] }

def stC7c : RunSt :=
  { trigRem := [.ok "TD"]
    wposRem := [.ok 3]
    segReply := segC2
    sent := sentSetup ++ ["ACQ:TRIG:STAT?", "ACQ:WPOS?", "ACQ:SOUR1:DATA:STA:N? 1,2"]
    dataReqs := [(1, 2)]
    errLog := [] }

def stC7d : RunSt :=
  { trigRem := []
    wposRem := [.ok 3]
    segReply := segC2
    sent := sentSetup ++ ["ACQ:TRIG:STAT?", "ACQ:WPOS?", "ACQ:SOUR1:DATA:STA:N? 1,2",
      "ACQ:TRIG:STAT?", "ACQ:STOP"]
    dataReqs := [(1, 2)]
    errLog := [] }

def stC7e : RunSt :=
  { trigRem := []
    wposRem := []
    segReply := segC2
    sent := sentSetup ++ ["ACQ:TRIG:STAT?", "ACQ:WPOS?", "ACQ:SOUR1:DATA:STA:N? 1,2",
      "ACQ:TRIG:STAT?", "ACQ:STOP", "ACQ:WPOS?", "ACQ:SOUR1:DATA:STA:N? 3,0"]
    dataReqs := [(1, 2), (3, 0)]
    errLog := [] }

def stC7f : RunSt :=
  { trigRem := []
    wposRem := []
    segReply := segC2
    sent := sentSetup ++ ["ACQ:TRIG:STAT?", "ACQ:WPOS?", "ACQ:SOUR1:DATA:STA:N? 1,2",
      "ACQ:TRIG:STAT?", "ACQ:STOP", "ACQ:WPOS?", "ACQ:SOUR1:DATA:STA:N? 3,0",
      ":WAV:SWE 0"]
    dataReqs := [(1, 2), (3, 0)]
    errLog := [] }

/-- C7, counterexample to the spec sentence: when the trigger-status query
returns the unrecognized string `"GARBAGE"`, `ACQ.get_trigger_state` returns
it as an ordinary (non-error) value — nothing is classified and no
`ProtocolError` is raised — and the sweep cycle is not aborted: the
`"GARBAGE"` poll is treated exactly like still-waiting (the engine drains
`[1, 3)` and polls again), and the whole sweep completes without any error,
returning the parsed data. -/
theorem C7_unrecognized_status_counterexample :
    (get_trigger_state envC7).1 = .ok "GARBAGE" ∧
    sweep_STS 2 envC7 = (.ok [1, 1], stC7f) ∧
    stC7f.dataReqs = [(1, 2), (3, 0)] ∧ stC7f.errLog = [] := by
  refine ⟨rfl, ?_, rfl, rfl⟩
  have hsetup : sweep_setup envC7 = (.ok 1, stC7a) := by rfl
  have hseg1 : stC7b.segReply 1 ((3:ℤ) - 1) = .ok (constReply 2) := by
    show Except.ok (constReply ((3:ℤ) - 1).toNat) = _
    rw [show ((3:ℤ) - 1).toNat = 2 from by decide]
  have hseg2 : stC7d.segReply 3 ((3:ℤ) - 3) = .ok (constReply 0) := by
    show Except.ok (constReply ((3:ℤ) - 3).toNat) = _
    rw [show ((3:ℤ) - 3).toNat = 0 from by decide]
  rw [sweep_STS, M.run_bind, sweep_core, bind_ok _ hsetup]
  rw [M.run_bind, sweep_loop_step_notTD stC7b rfl (by decide) rfl, M.run_bind,
    get_data_run_nowrap stC7c (constReply 2) rfl (by decide) hseg1 rfl]
  simp only []
  rw [show (1:ℕ) = 0 + 1 from rfl, sweep_loop_step_TD stC7d rfl rfl]
  simp only []
  rw [M.run_bind, get_data_run_nowrap stC7e (constReply 0) rfl (by decide) hseg2 rfl]
  simp only []
  simp only [M.pure]
  simp only [List.nil_append]
  simp only [List.singleton_append]
  simp only [List.cons_append]
  simp only [List.drop_succ_cons]
  simp only [List.drop_zero]
  simp only [List.append_assoc]
  simp only [List.singleton_append]
  have heq : constReply 2 ++ ',' :: constReply 0 = cs "\x7b1.0,1.0\x7d,\x7b\x7d" := by decide
  rw [heq]
  have htoks : (splitOnChar ','
      (listReplace '\x7d' [] [] (listReplace '\x7b' [] []
        (listReplace ' ' [' '] [] (stripChars pyStripSet
          (cs "\x7b1.0,1.0\x7d,\x7b\x7d")))))).dropLast
      = [cs "1.0", cs "1.0"] := by decide
  have hparse : parse_buffer_string (cs "\x7b1.0,1.0\x7d,\x7b\x7d") = .ok [1, 1] := by
    rw [parse_buffer_string, htoks, mapFloat,
      pyFloat_eval (show pyFloatParts (cs "1.0") = some (false, 1, 0, 1) from by decide)
        (show partsVal (false, 1, 0, 1) = 1 from by norm_num [partsVal]),
      mapFloat,
      pyFloat_eval (show pyFloatParts (cs "1.0") = some (false, 1, 0, 1) from by decide)
        (show partsVal (false, 1, 0, 1) = 1 from by norm_num [partsVal]),
      mapFloat]
  rw [hparse]
  simp only [M.run_bind, M.ofExcept, stop_sweep, tx, M.run_pure, M.pure]
  rfl

/-- C7 (amended): `ACQ.get_trigger_state` performs no classification of the
reply — it returns the raw status string as an ordinary value, whatever it
is — and inside the polling loop of `sweep_STS` every reply other than the
exact string `"TD"` (`"WAIT"` and unrecognized garbage alike) is treated
as still-waiting: the engine drains the buffer and polls again, rather
than surfacing an error or aborting the cycle. -/
theorem C7_unrecognized_status_amended (s s' : RunSt) (r : String)
    (rest : List (Except PyError String)) (fuel : ℕ) (p : ℤ) (acc : List Char)
    (h : s.trigRem = .ok r :: rest) (hr : ¬r = "TD")
    (hout : { s with trigRem := rest, sent := s.sent ++ ["ACQ:TRIG:STAT?"] } = s') :
    get_trigger_state s = (.ok r, s') ∧
    sweep_loop (fuel + 1) p acc s =
      (get_data p >>= fun gd => sweep_loop fuel gd.2 (acc ++ [','] ++ gd.1)) s' :=
  ⟨get_trigger_state_run s' h hout, sweep_loop_step_notTD s' h hr hout⟩

/-- C7 amended theorem instantiated: the scripted reply `"GARBAGE"` is
returned raw and the loop's next action is an ordinary drain-and-continue. -/
theorem C7_unrecognized_status_amended_witness :
    get_trigger_state envC7 = (.ok "GARBAGE",
      { envC7 with trigRem := [Except.ok "TD"], sent := envC7.sent ++ ["ACQ:TRIG:STAT?"] }) ∧
    sweep_loop 1 1 [] envC7 =
      (get_data 1 >>= fun gd => sweep_loop 0 gd.2 ([] ++ [','] ++ gd.1))
        { envC7 with trigRem := [Except.ok "TD"], sent := envC7.sent ++ ["ACQ:TRIG:STAT?"] } :=
  C7_unrecognized_status_amended envC7
    { envC7 with trigRem := [Except.ok "TD"], sent := envC7.sent ++ ["ACQ:TRIG:STAT?"] }
    "GARBAGE" [Except.ok "TD"] 0 1 [] rfl (by decide) rfl

/-! ## Claim C3 -/

/-- `NoStop x`: running `x` never introduces the laser-cleanup command
`":WAV:SWE 0"` (the command `STS.stop_sweep` sends) into the `sent` log. -/
def NoStop {α : Type} (x : M α) : Prop :=
  ∀ s : RunSt, ":WAV:SWE 0" ∉ s.sent → ":WAV:SWE 0" ∉ (x s).2.sent

theorem NoStop_bind {α β : Type} {x : M α} {f : α → M β}
    (hx : NoStop x) (hf : ∀ a, NoStop (f a)) : NoStop (x >>= f) := by
  intro s hs
  have hx1 := hx s hs
  rw [M.run_bind]
  cases hxs : x s with
  | mk r s1 =>
    rw [hxs] at hx1
    cases r with
    | error e => exact hx1
    | ok a => exact hf a s1 hx1

theorem NoStop_pure {α : Type} (a : α) : NoStop (M.pure a) := fun _ hs => hs

theorem NoStop_throw {α : Type} (e : PyError) : NoStop (M.throw e : M α) := fun _ hs => hs

theorem NoStop_tx {c : String} (h : ¬c = ":WAV:SWE 0") : NoStop (tx c) := by
  intro s hs hmem
  rcases List.mem_append.1 hmem with h1 | h2
  · exact hs h1
  · exact h (List.mem_singleton.1 h2).symm

theorem NoStop_rx_trig : NoStop rx_trig := by
  intro s hs
  unfold rx_trig
  cases s.trigRem
  · exact hs
  · exact hs

theorem NoStop_rx_wpos : NoStop rx_wpos := by
  intro s hs
  unfold rx_wpos
  cases s.wposRem
  · exact hs
  · exact hs

theorem NoStop_get_data_N (source : String) (start N : ℤ) :
    NoStop (get_data_N source start N) := by
  intro s hs hmem
  rcases List.mem_append.1 hmem with h1 | h2
  · exact hs h1
  · have h4 := List.mem_singleton.1 h2
    have h5 : (some ':' : Option Char) = some 'A' :=
      congrArg (fun t : String => t.data.head?) h4
    exact absurd h5 (by decide)

theorem NoStop_handler {α : Type} {f : M α} (hf : NoStop f) :
    NoStop (exception_handler f) := by
  intro s hs
  have hf1 := hf s hs
  unfold exception_handler
  cases hfs : f s with
  | mk r s1 =>
    rw [hfs] at hf1
    cases r with
    | error e => exact hf1
    | ok a => exact hf1

theorem NoStop_ite {α : Type} {c : Prop} [Decidable c] {x y : M α}
    (hx : NoStop x) (hy : NoStop y) : NoStop (if c then x else y) := by
  by_cases h : c
  · rw [if_pos h]; exact hx
  · rw [if_neg h]; exact hy

theorem NoStop_get_trigger_state : NoStop get_trigger_state := by
  unfold get_trigger_state
  exact NoStop_bind (NoStop_tx (by decide)) fun _ => NoStop_rx_trig

theorem NoStop_get_write_pointer : NoStop get_write_pointer := by
  unfold get_write_pointer
  exact NoStop_bind (NoStop_tx (by decide)) fun _ => NoStop_rx_wpos

theorem NoStop_get_data (p : ℤ) : NoStop (get_data p) := by
  unfold get_data
  refine NoStop_bind NoStop_get_write_pointer fun cur => ?_
  refine NoStop_ite ?_ ?_
  · exact NoStop_bind (NoStop_get_data_N _ _ _) fun d1 =>
      NoStop_bind (NoStop_get_data_N _ _ _) fun d2 => NoStop_pure _
  · exact NoStop_bind (NoStop_get_data_N _ _ _) fun d1 => NoStop_pure _

theorem NoStop_sweep_loop (fuel : ℕ) (p : ℤ) (acc : List Char) :
    NoStop (sweep_loop fuel p acc) := by
  induction fuel generalizing p acc with
  | zero => exact NoStop_throw _
  | succ n ih =>
    rw [sweep_loop]
    refine NoStop_bind NoStop_get_trigger_state fun st => ?_
    refine NoStop_ite ?_ ?_
    · exact NoStop_bind (NoStop_tx (by decide)) fun _ => NoStop_pure _
    · exact NoStop_bind (NoStop_get_data p) fun r => ih r.2 _

theorem NoStop_sweep_setup : NoStop sweep_setup := by
  have h01 : NoStop (set_external_trigger 0) :=
    NoStop_handler (NoStop_ite (NoStop_tx (by decide)) (NoStop_throw _))
  have h02 : NoStop (set_trigger_output "Stop") :=
    NoStop_handler (NoStop_ite (NoStop_tx (by decide))
      (NoStop_ite (NoStop_tx (by decide)) (NoStop_ite (NoStop_tx (by decide))
        (NoStop_ite (NoStop_tx (by decide)) (NoStop_throw _)))))
  have h03 : NoStop (set_trigger_standby 1) :=
    NoStop_handler (NoStop_ite (NoStop_tx (by decide)) (NoStop_throw _))
  have h04 : NoStop stop_logging := NoStop_tx (by decide)
  have h05 : NoStop (set_averaging "OFF") :=
    NoStop_handler (NoStop_ite (NoStop_tx (by decide)) (NoStop_pure _))
  have h06 : NoStop (set_decimation 2048) :=
    NoStop_handler (NoStop_ite (NoStop_tx (by decide)) (NoStop_throw _))
  have h07 : NoStop (set_data_units "Volts") :=
    NoStop_handler (NoStop_ite (NoStop_tx (by decide)) (NoStop_throw _))
  have h08 : NoStop (set_trigger_level 1) := NoStop_tx (by decide)
  have h09 : NoStop start_sweep := NoStop_tx (by decide)
  have h10 : NoStop start_logging := NoStop_tx (by decide)
  have h11 : NoStop (set_trigger_state "CH2_NE") := NoStop_tx (by decide)
  have h12 : NoStop send_software_trigger := NoStop_tx (by decide)
  unfold sweep_setup
  refine NoStop_bind h01 fun _ => ?_
  refine NoStop_bind h02 fun _ => ?_
  refine NoStop_bind h03 fun _ => ?_
  refine NoStop_bind h04 fun _ => ?_
  refine NoStop_bind h05 fun _ => ?_
  refine NoStop_bind h06 fun _ => ?_
  refine NoStop_bind h07 fun _ => ?_
  refine NoStop_bind h08 fun _ => ?_
  refine NoStop_bind h09 fun _ => ?_
  refine NoStop_bind h10 fun _ => ?_
  refine NoStop_bind NoStop_get_write_pointer fun p => ?_
  refine NoStop_bind h11 fun _ => ?_
  exact NoStop_bind h12 fun _ => NoStop_pure _

theorem NoStop_sweep_core (fuel : ℕ) : NoStop (sweep_core fuel) := by
  unfold sweep_core
  refine NoStop_bind NoStop_sweep_setup fun p => ?_
  refine NoStop_bind (NoStop_sweep_loop fuel p []) fun r => ?_
  exact NoStop_bind (NoStop_get_data r.2) fun rf => NoStop_pure _

def envC3 : RunSt :=
  { trigRem := [.ok "WAIT"]
    wposRem := [.ok 1, .error .transport]
    segReply := segC2
    sent := []
    dataReqs := []
    errLog := [] }

def stC3a : RunSt :=
  { trigRem := [.ok "WAIT"]
    wposRem := [.error .transport]
    segReply := segC2
    sent := sentSetup
    dataReqs := []
    errLog := [] }

def stC3b : RunSt :=
  { trigRem := []
    wposRem := [.error .transport]
    segReply := segC2
    sent := sentSetup ++ ["ACQ:TRIG:STAT?"]
    dataReqs := []
    errLog := [] }

def stC3c : RunSt :=
  { trigRem := []
    wposRem := []
    segReply := segC2
    sent := sentSetup ++ ["ACQ:TRIG:STAT?", "ACQ:WPOS?"]
    dataReqs := []
    errLog := [] }

/-- The C3 scenario run, shared by the claim's theorems: the sweep is set
up (write pointer 1), one still-waiting poll happens, and the write-pointer
query of the drain fails at the transport level. -/
theorem sweep_core_C3_run : sweep_core 1 envC3 = (.error .transport, stC3c) := by
  have hsetup : sweep_setup envC3 = (.ok 1, stC3a) := by rfl
  rw [sweep_core, bind_ok _ hsetup]
  rw [M.run_bind, sweep_loop_step_notTD stC3b rfl (by decide) rfl]
  rw [bind_error _ (get_data_run_error stC3c rfl rfl)]

/-- C3 (amended): a transport-level failure while draining aborts the
cycle with the partial data discarded and the original error surfaced
unchanged to the caller — `sweep_STS` returns exactly the error produced
inside `sweep_core` and no parsed data — but *no* cleanup is attempted:
the laser-sweep stop command `":WAV:SWE 0"` is never sent on the error
path (it is only sent after a fully successful parse), so the laser is
left sweeping. -/
theorem C3_drain_failure_aborts_without_cleanup (fuel : ℕ) (s : RunSt) (e : PyError)
    (hcore : (sweep_core fuel s).1 = .error e)
    (hns : ":WAV:SWE 0" ∉ s.sent) :
    sweep_STS fuel s = (.error e, (sweep_core fuel s).2) ∧
    ":WAV:SWE 0" ∉ (sweep_STS fuel s).2.sent := by
  have hrun : sweep_STS fuel s = (.error e, (sweep_core fuel s).2) := by
    rw [sweep_STS, M.run_bind]
    cases hcs : sweep_core fuel s with
    | mk r s2 =>
      rw [hcs] at hcore
      cases r with
      | error e2 =>
        injection hcore with h2
        subst h2
        rfl
      | ok a => exact Except.noConfusion hcore
  refine ⟨hrun, ?_⟩
  rw [hrun]
  exact NoStop_sweep_core fuel s hns

/-- The amended C3 theorem at the concrete transport-failure scenario. -/
theorem C3_drain_failure_aborts_without_cleanup_witness :
    sweep_STS 1 envC3 = (.error .transport, (sweep_core 1 envC3).2) ∧
    ":WAV:SWE 0" ∉ (sweep_STS 1 envC3).2.sent :=
  C3_drain_failure_aborts_without_cleanup 1 envC3 .transport
    (by rw [sweep_core_C3_run]) (by decide)

/-- C3, counterexample to the spec's cleanup sentence: on the scripted
transport failure during the drain's write-pointer query, the cycle does
abort with the original error and no data — but the claimed best-effort
cleanup never happens: the final `sent` log contains no `":WAV:SWE 0"`
(the laser sweep is not stopped) and `"ACQ:STOP"` only once, from the
arming sequence before the failure (logging is not stopped either). -/
theorem C3_no_cleanup_counterexample :
    sweep_STS 1 envC3 = (.error .transport, stC3c) ∧
    ":WAV:SWE 0" ∉ stC3c.sent ∧
    stC3c.sent.count "ACQ:STOP" = 1 := by
  refine ⟨?_, by decide, by decide⟩
  rw [sweep_STS, M.run_bind, sweep_core_C3_run]

/-! ## Claim C4 -/

/-- Running the decorated `STS.set_start_wavelength` on an in-range value:
the inner validation passes and the 770-format command is sent. -/
theorem set_start_wavelength_run (w : ℚ) (s s' : RunSt)
    (h : 1480 ≤ w ∧ w ≤ 1640)
    (hout : { s with sent := s.sent ++ [":WAV:SWE:STAR " ++ toString w ++ "nm"] } = s') :
    set_start_wavelength w s = (.ok (), s') := by
  subst hout
  rw [set_start_wavelength]
  unfold exception_handler
  rw [set_start_wavelength_inner,
    if_pos (⟨h, rfl⟩ : (1480 ≤ w ∧ w ≤ 1640) ∧ tsl_version = 770)]
  rfl

/-- Running the decorated `STS.set_stop_wavelength` on an in-range value. -/
theorem set_stop_wavelength_run (w : ℚ) (s s' : RunSt)
    (h : 1480 ≤ w ∧ w ≤ 1640)
    (hout : { s with sent := s.sent ++ [":WAV:SWE:STOP " ++ toString w ++ "nm"] } = s') :
    set_stop_wavelength w s = (.ok (), s') := by
  subst hout
  rw [set_stop_wavelength]
  unfold exception_handler
  rw [set_stop_wavelength_inner,
    if_pos (⟨h, rfl⟩ : (1480 ≤ w ∧ w ≤ 1640) ∧ tsl_version = 770)]
  rfl

/-- Running the decorated `STS.set_sweep_speed` on an in-range value. -/
theorem set_sweep_speed_run (sp : ℚ) (s s' : RunSt)
    (h : 1 / 2 ≤ sp ∧ sp ≤ 200)
    (hout : { s with sent := s.sent ++ [":WAV:SWE:SPE " ++ toString sp ++ "nm/s"] } = s') :
    set_sweep_speed sp s = (.ok (), s') := by
  subst hout
  rw [set_sweep_speed]
  unfold exception_handler
  rw [set_sweep_speed_inner,
    if_pos (⟨h, rfl⟩ : (1 / 2 ≤ sp ∧ sp ≤ 200) ∧ tsl_version = 770)]
  rfl

/-- Running the decorated `TSL.set_power` on an in-range value. -/
theorem set_power_run (p : ℚ) (s s' : RunSt)
    (h : p ≤ 13)
    (hout : { s with sent := s.sent ++ [":POW " ++ toString p ++ "mW"] } = s') :
    set_power p s = (.ok (), s') := by
  subst hout
  rw [set_power]
  unfold exception_handler
  rw [set_power_inner, if_pos (⟨h, rfl⟩ : p ≤ 13 ∧ tsl_version = 770)]
  rfl

/-- Running the decorated `STS.set_start_wavelength` on an out-of-range
value: the inner validation re-raises `ValueError`, the decorator swallows
it, logs it, and returns normally; no command is sent by this setter. -/
theorem set_start_wavelength_run_invalid (w : ℚ) (s s' : RunSt)
    (h : ¬((1480 ≤ w ∧ w ≤ 1640) ∧ tsl_version = 770))
    (h2 : ¬((1480 ≤ w ∧ w ≤ 1640) ∧ tsl_version = 550))
    (hout : { s with errLog := s.errLog ++ [.valueError] } = s') :
    set_start_wavelength w s = (.ok (), s') := by
  subst hout
  rw [set_start_wavelength]
  unfold exception_handler
  rw [set_start_wavelength_inner, if_neg h, if_neg h2]
  rfl

/-- C4 (amended, the in-range half of the claim, which the code does
satisfy): for every `sweep_parameters_class` value with all four fields in
their documented ranges, `set_sweep_parameters` sends exactly four
commands, in source order — start wavelength, stop wavelength, speed,
power — whose encoded values equal the inputs in the documented unit
format (wavelengths with an `"nm"` suffix, speed with `"nm/s"`, power with
`"mW"`), returns normally, and changes nothing else (in particular the
error log): validation failure is impossible here.  (For an out-of-range
field the spec's zero-commands/`InvalidParameter` sentence fails — each
setter's `exception_handler` swallows its own `ValueError`, so the
remaining in-range fields are still sent and the caller sees a normal
return; see the counterexample.) -/
theorem C4_in_range_sends_exactly_four (P : sweep_parameters_class) (s : RunSt)
    (h1 : 1480 ≤ P.start_wavelength ∧ P.start_wavelength ≤ 1640)
    (h2 : 1480 ≤ P.stop_wavelength ∧ P.stop_wavelength ≤ 1640)
    (h3 : 1 / 2 ≤ P.speed ∧ P.speed ≤ 200)
    (h4 : P.power ≤ 13) :
    set_sweep_parameters P s = (.ok (), { s with sent := s.sent ++
      [":WAV:SWE:STAR " ++ toString P.start_wavelength ++ "nm",
       ":WAV:SWE:STOP " ++ toString P.stop_wavelength ++ "nm",
       ":WAV:SWE:SPE " ++ toString P.speed ++ "nm/s",
       ":POW " ++ toString P.power ++ "mW"] }) := by
  rw [set_sweep_parameters]
  rw [bind_ok _ (set_start_wavelength_run P.start_wavelength s _ h1 rfl)]
  rw [bind_ok _ (set_stop_wavelength_run P.stop_wavelength _ _ h2 rfl)]
  rw [bind_ok _ (set_sweep_speed_run P.speed _ _ h3 rfl)]
  rw [set_power_run P.power _ _ h4 rfl]
  simp [List.append_assoc]

def envC4 : RunSt :=
  { trigRem := []
    wposRem := []
    segReply := fun _ _ => .ok []
    sent := []
    dataReqs := []
    errLog := [] }

/-- The amended C4 theorem at the concrete in-range parameters
speed 100 nm/s, power 5 mW, wavelengths 1500–1600 nm. -/
theorem C4_in_range_sends_exactly_four_witness :
    ((1480:ℚ) ≤ 1500 ∧ (1500:ℚ) ≤ 1640) ∧ ((1480:ℚ) ≤ 1600 ∧ (1600:ℚ) ≤ 1640) ∧
    ((1:ℚ) / 2 ≤ 100 ∧ (100:ℚ) ≤ 200) ∧ (5:ℚ) ≤ 13 ∧
    set_sweep_parameters ⟨100, 5, 1500, 1600⟩ envC4 = (.ok (), { envC4 with
      sent := envC4.sent ++
        [":WAV:SWE:STAR " ++ toString (1500:ℚ) ++ "nm",
         ":WAV:SWE:STOP " ++ toString (1600:ℚ) ++ "nm",
         ":WAV:SWE:SPE " ++ toString (100:ℚ) ++ "nm/s",
         ":POW " ++ toString (5:ℚ) ++ "mW"] }) :=
  ⟨⟨by norm_num, by norm_num⟩, ⟨by norm_num, by norm_num⟩, ⟨by norm_num, by norm_num⟩,
   by norm_num,
   C4_in_range_sends_exactly_four ⟨100, 5, 1500, 1600⟩ envC4
     ⟨by norm_num, by norm_num⟩ ⟨by norm_num, by norm_num⟩ ⟨by norm_num, by norm_num⟩
     (by norm_num)⟩

/-- C4, counterexample to the out-of-range sentence: with start wavelength
2000 nm (outside [1480, 1640]) and the other three fields in range,
`set_sweep_parameters` does *not* send zero commands and does *not* return
an error: `set_start_wavelength`'s own `exception_handler` swallows the
`ValueError` (logging it) and the three remaining setters still fire, so
the caller sees a normal return with the instruments partially
configured. -/
theorem C4_out_of_range_counterexample :
    set_sweep_parameters ⟨100, 5, 2000, 1600⟩ envC4 =
      (.ok (), { envC4 with
        sent := [":WAV:SWE:STOP 1600nm", ":WAV:SWE:SPE 100nm/s", ":POW 5mW"]
        errLog := [.valueError] }) := by
  rw [set_sweep_parameters]
  rw [bind_ok _ (set_start_wavelength_run_invalid 2000 envC4 _ (by norm_num) (by norm_num) rfl)]
  rw [bind_ok _ (set_stop_wavelength_run 1600 _ _ ⟨by norm_num, by norm_num⟩ rfl)]
  rw [bind_ok _ (set_sweep_speed_run 100 _ _ ⟨by norm_num, by norm_num⟩ rfl)]
  rw [set_power_run 5 _ _ (by norm_num) rfl]
  rfl

/-! ## Claim C10 -/

/-- Both branches of the decorator end in `.ok ()`: no decorated operation
can ever surface an exception or a value. -/
theorem exception_handler_fst {α : Type} (g : M α) (s0 : RunSt) :
    (exception_handler g s0).1 = .ok () := by
  unfold exception_handler
  cases g s0 with
  | mk r s1 => cases r <;> rfl

/-- The state after the decorator's `try`/`except`: unchanged on a normal
return, the raised error appended to the logger's record on an exception. -/
def postState {α : Type} (r : Except PyError α) (s1 : RunSt) : RunSt :=
  match r with
  | .ok _ => s1
  | .error e => { s1 with errLog := s1.errLog ++ [e] }

/-- C10: the `exception_handler` decorator catches every exception of the
wrapped computation: whatever `f` does from state `s` — return a value or
raise any `PyError` — the decorated call returns `.ok ()`; a raised
exception is appended to the logger's record (`errLog`) and swallowed, and
a returned value is discarded (the wrapper returns `Unit`, Python `None`).
In particular the decorated setters `ACQ.set_decimation`,
`ACQ.set_data_units` and `STS.set_sweep_speed` never propagate their
validation `ValueError`s (nor any transport fault) to the caller. -/
theorem C10_exception_handler_swallows_all {α : Type} (f : M α) (s s1 : RunSt)
    (r : Except PyError α) (hf : f s = (r, s1)) (dec : ℕ) (u : String) (sp : ℚ)
    (s0 : RunSt) :
    exception_handler f s = (.ok (), postState r s1) ∧
    (set_decimation dec s0).1 = .ok () ∧
    (set_data_units u s0).1 = .ok () ∧
    (set_sweep_speed sp s0).1 = .ok () := by
  refine ⟨?_, exception_handler_fst _ _, exception_handler_fst _ _, exception_handler_fst _ _⟩
  cases r with
  | ok a =>
    unfold exception_handler
    rw [hf]
    rfl
  | error e =>
    unfold exception_handler
    rw [hf]
    rfl

/-- C10 at a concrete decorated failure: `set_decimation 3` (3 is not a
power of two) raises `ValueError` inside, and the decorated call returns
`.ok ()` with the error only logged. -/
theorem C10_exception_handler_swallows_all_witness :
    set_decimation_inner 3 envC4 = (.error .valueError, envC4) ∧
    (exception_handler (set_decimation_inner 3) envC4 =
       (.ok (), { envC4 with errLog := envC4.errLog ++ [.valueError] }) ∧
     (set_decimation 6 envC4).1 = .ok () ∧
     (set_data_units "FURLONGS" envC4).1 = .ok () ∧
     (set_sweep_speed 1000 envC4).1 = .ok ()) :=
  ⟨rfl, C10_exception_handler_swallows_all (set_decimation_inner 3) envC4 envC4
     (.error .valueError) rfl 6 "FURLONGS" 1000 envC4⟩

/-! ## Claim C9 -/

theorem linspace_ne_nil (a b : ℚ) (n : ℕ) (h : n ≠ 0) : linspace a b n ≠ [] := by
  match n with
  | 1 => exact List.cons_ne_nil _ _
  | n + 2 =>
    rw [linspace]
    refine List.ne_nil_of_length_pos ?_
    rw [List.length_map, List.length_range]
    omega

/-- C9: the wavelength mapper fails on both degenerate inputs: with a
non-empty sample list and `speed = 0` (`params[2]`) the retained-time
comprehension evaluates `(params[1] - params[0]) / params[2]` with a zero
divisor and the call fails (Python `ZeroDivisionError`), and with an empty
sample list the time axis is empty, nothing is retained, and `t[-1]` fails
(Python `IndexError`) whatever `params` holds — in both cases the caller
gets the spec's `InvalidParameter` failure, never a normal return. -/
theorem C9_mapper_failure_modes (y : List ℚ) (acq acq2 p0 p1 : ℚ)
    (ps params : List ℚ) (hy : y ≠ []) :
    plot_data y acq (p0 :: p1 :: 0 :: ps) = .error .zeroDivisionError ∧
    plot_data [] acq2 params = .error .indexError := by
  constructor
  · have hne : linspace 0 acq y.length ≠ [] :=
      linspace_ne_nil 0 acq y.length (fun h => hy (List.length_eq_zero.1 h))
    simp only [plot_data]
    rw [if_pos ⟨hne, trivial⟩]
  · match params with
    | [] => rfl
    | [p0] => rfl
    | [p0, p1] => rfl
    | p0 :: p1 :: p2 :: rest => simp [plot_data, linspace]

/-- C9 at concrete inputs: one sample with zero sweep speed, and an empty
sample list. -/
theorem C9_mapper_failure_modes_witness :
    ([(1:ℚ)] ≠ []) ∧
    (plot_data [(1:ℚ)] 2 (1500 :: 1600 :: 0 :: [5]) = .error .zeroDivisionError ∧
     plot_data [] 3 [1500, 1600, 100] = .error .indexError) :=
  ⟨List.cons_ne_nil _ _,
   C9_mapper_failure_modes [(1:ℚ)] 2 3 1500 1600 [5] [1500, 1600, 100]
     (List.cons_ne_nil _ _)⟩

/-! ## Claim C6 -/

theorem linspace_length (a b : ℚ) (n : ℕ) : (linspace a b n).length = n := by
  match n with
  | 0 => rfl
  | 1 => rfl
  | n + 2 =>
    rw [linspace, List.length_map, List.length_range]

theorem linspace_sorted (a b : ℚ) (n : ℕ) (h : a ≤ b) :
    (linspace a b n).Sorted (· ≤ ·) := by
  match n with
  | 0 => simp [linspace]
  | 1 => simp [linspace]
  | n + 2 =>
    rw [linspace, List.Sorted, List.pairwise_map]
    refine (List.pairwise_lt_range _).imp ?_
    intro i j hij
    have hnum : (b - a) * (i : ℚ) ≤ (b - a) * (j : ℚ) :=
      mul_le_mul_of_nonneg_left (by exact_mod_cast le_of_lt hij) (sub_nonneg.2 h)
    have hden : (0:ℚ) < (n : ℚ) + 1 := by positivity
    exact add_le_add_left ((div_le_div_iff_of_pos_right hden).2 hnum) a

/-- On an ascending list, filtering by a lower-bound threshold keeps
exactly a suffix. -/
theorem filter_suffix_of_sorted (c : ℚ) (l : List ℚ) (hl : l.Sorted (· ≤ ·)) :
    l.filter (fun v => decide (c ≤ v)) <:+ l := by
  induction l with
  | nil => simp
  | cons x xs ih =>
    rcases List.sorted_cons.1 hl with ⟨hx, hxs⟩
    by_cases h : c ≤ x
    · have hall : ∀ v ∈ x :: xs, (fun v => decide (c ≤ v)) v = true := by
        intro v hv
        rcases List.mem_cons.1 hv with rfl | hv2
        · simpa using h
        · simpa using le_trans h (hx v hv2)
      rw [List.filter_eq_self.2 hall]
    · rw [List.filter_cons_of_neg (by simpa using h)]
      exact (ih hxs).trans (List.suffix_cons x xs)

/-- C6 (amended): for a nonnegative acquisition time and nonzero speed
`p2`, *provided the retained time list is non-empty* (hypothesis `hlast`,
its last element being `tlast`), `plot_data` returns the wavelengths
`p1 + p2 * (t - tlast)` of the retained timestamps paired with the
same-length trailing suffix of the samples; the retained list is exactly
the threshold filter of the uniform axis and, the axis being ascending, a
suffix of it; the last retained sample maps exactly to the stop wavelength
`p1`; and the paired data has exactly the retained length.  (The claim's
"for every non-empty sample list" is too strong: when every axis point
falls below the threshold the retained list is empty and the code fails
with `IndexError` at `t[-1]` — see the counterexample.) -/
theorem C6_wavelength_mapping_amended (y : List ℚ) (acq p0 p1 p2 : ℚ) (ps : List ℚ)
    (hacq : 0 ≤ acq) (hp2 : p2 ≠ 0) (tlast : ℚ)
    (hlast : ((linspace 0 acq y.length).filter
        (fun v => acq - (p1 - p0) / p2 ≤ v)).getLast? = some tlast) :
    plot_data y acq (p0 :: p1 :: p2 :: ps) =
      .ok (((linspace 0 acq y.length).filter
            (fun v => acq - (p1 - p0) / p2 ≤ v)).map (fun v => p1 + p2 * (v - tlast)),
        y.drop (y.length - ((linspace 0 acq y.length).filter
            (fun v => acq - (p1 - p0) / p2 ≤ v)).length)) ∧
    (((linspace 0 acq y.length).filter
        (fun v => acq - (p1 - p0) / p2 ≤ v)).map
          (fun v => p1 + p2 * (v - tlast))).getLast? = some p1 ∧
    ((linspace 0 acq y.length).filter
        (fun v => acq - (p1 - p0) / p2 ≤ v)) <:+ linspace 0 acq y.length ∧
    (y.drop (y.length - ((linspace 0 acq y.length).filter
        (fun v => acq - (p1 - p0) / p2 ≤ v)).length)).length =
      ((linspace 0 acq y.length).filter
        (fun v => acq - (p1 - p0) / p2 ≤ v)).length := by
  have hlen : ((linspace 0 acq y.length).filter
      (fun v => acq - (p1 - p0) / p2 ≤ v)).length ≤ y.length := by
    calc ((linspace 0 acq y.length).filter (fun v => acq - (p1 - p0) / p2 ≤ v)).length
        ≤ (linspace 0 acq y.length).length := List.length_filter_le _ _
      _ = y.length := linspace_length _ _ _
  refine ⟨?_, ?_, ?_, ?_⟩
  · simp only [plot_data]
    rw [if_neg (fun hc => hp2 hc.2), hlast]
    simp only [List.length_map]
  · rw [List.getLast?_map, hlast]
    simp [sub_self]
  · exact filter_suffix_of_sorted _ _ (linspace_sorted 0 acq _ hacq)
  · rw [List.length_drop]
    omega

/-- The amended C6 theorem at a concrete instance: two samples over
`[0, 2]` s with the sweep 1500→1600 nm at 100 nm/s, threshold `t ≥ 1`:
the retained axis is `[2]`, the wave is `[1600]` paired with the last
sample, and the last retained sample maps exactly to 1600. -/
theorem C6_wavelength_mapping_amended_witness :
    (0:ℚ) ≤ 2 ∧ (100:ℚ) ≠ 0 ∧
    ((linspace 0 2 (List.length [(1:ℚ), 2])).filter
        (fun v => (2:ℚ) - (1600 - 1500) / 100 ≤ v)).getLast? = some 2 ∧
    (plot_data [(1:ℚ), 2] 2 (1500 :: 1600 :: 100 :: [5]) =
      .ok (((linspace 0 2 (List.length [(1:ℚ), 2])).filter
            (fun v => (2:ℚ) - (1600 - 1500) / 100 ≤ v)).map
              (fun v => (1600:ℚ) + 100 * (v - 2)),
        [(1:ℚ), 2].drop ((List.length [(1:ℚ), 2]) -
          ((linspace 0 2 (List.length [(1:ℚ), 2])).filter
            (fun v => (2:ℚ) - (1600 - 1500) / 100 ≤ v)).length)) ∧
     (((linspace 0 2 (List.length [(1:ℚ), 2])).filter
        (fun v => (2:ℚ) - (1600 - 1500) / 100 ≤ v)).map
          (fun v => (1600:ℚ) + 100 * (v - 2))).getLast? = some 1600 ∧
     ((linspace 0 2 (List.length [(1:ℚ), 2])).filter
        (fun v => (2:ℚ) - (1600 - 1500) / 100 ≤ v)) <:+
       linspace 0 2 (List.length [(1:ℚ), 2]) ∧
     ([(1:ℚ), 2].drop ((List.length [(1:ℚ), 2]) -
        ((linspace 0 2 (List.length [(1:ℚ), 2])).filter
          (fun v => (2:ℚ) - (1600 - 1500) / 100 ≤ v)).length)).length =
       ((linspace 0 2 (List.length [(1:ℚ), 2])).filter
          (fun v => (2:ℚ) - (1600 - 1500) / 100 ≤ v)).length) := by
  have haxis2 : linspace 0 2 2 = [0, 2] := by
    rw [show (2:ℕ) = 0 + 2 from rfl, linspace]
    norm_num [List.range_succ]
  have hfl : ((linspace 0 2 (List.length [(1:ℚ), 2])).filter
      (fun v => (2:ℚ) - (1600 - 1500) / 100 ≤ v)) = [2] := by
    rw [show List.length [(1:ℚ), 2] = 2 from rfl, haxis2]
    simp only [List.filter_cons, List.filter_nil]
    norm_num
  have hlast : ((linspace 0 2 (List.length [(1:ℚ), 2])).filter
      (fun v => (2:ℚ) - (1600 - 1500) / 100 ≤ v)).getLast? = some 2 := by
    rw [hfl]
    rfl
  exact ⟨by norm_num, by norm_num, hlast,
    C6_wavelength_mapping_amended [(1:ℚ), 2] 2 1500 1600 100 [5]
      (by norm_num) (by norm_num) 2 hlast⟩

/-- C6, counterexample to the unqualified claim: a single sample with
acquisition time 2 s and sweep 1500→1600 nm at 100 nm/s is a non-empty
sample list with positive acquisition time and nonzero speed, yet the
mapper does not return the paired suffix: the only axis point `t = 0`
falls below the threshold `t ≥ 1`, nothing is retained, and `t[-1]` fails
with `IndexError`. -/
theorem C6_empty_retained_counterexample :
    plot_data [(1:ℚ)] 2 [1500, 1600, 100, 5] = .error .indexError := by
  simp only [plot_data]
  rw [show List.length [(1:ℚ)] = 1 from rfl, show linspace 0 2 1 = [0] from rfl]
  rw [if_neg (fun hc => absurd hc.2 (by norm_num))]
  simp only [List.filter_cons, List.filter_nil]
  norm_num
